import Mathlib

/-!
Shallow embedding of `src/gsplat/cuda/csrc/Rasterization.cpp`, the host-side
dispatch layer of the gsplat tile-parallel compositing engine.  Tensors are
modelled by their shape, dtype, device and contiguity flags together with a
flat data list (`none` = an uninitialized cell, as produced by `at::empty`).
Every wrapper returns the list of kernel launches it performed together with
either its outputs or the error it raised, so that "raised before any kernel
was launched" is a provable statement about the trace.
-/

namespace GsplatRaster

/-- Scalar types of the tensors that appear in the dispatch layer
(`opt` = float dtype of `means2d`, `at::kInt`, `at::kLong`). -/
inductive DType
  | float32
  | int32
  | int64
deriving DecidableEq

/-- A dense torch tensor, modelled by shape/dtype/device/contiguity and its
flattened cells.  A cell is `none` when it has never been written
(`at::empty` allocates without initializing). -/
structure Tensor where
  shape : List Nat
  dtype : DType
  isCuda : Bool
  contiguous : Bool
  data : List (Option ℚ)
deriving DecidableEq

/-- `t.numel()` -/
def Tensor.numel (t : Tensor) : Nat := t.shape.prod

/-- `t.size(-1)` (last dimension). -/
def Tensor.sizeLast (t : Tensor) : Nat := t.shape.getLastD 0

/-- `t.size(0)` -/
def Tensor.size0 (t : Tensor) : Nat := t.shape.headD 0

/-- `t.size(-3)` -/
def Tensor.sizeNeg3 (t : Tensor) : Nat := t.shape.getD (t.shape.length - 3) 0

/-- `at::empty(shape, opt)`: allocation without initialization. -/
def atEmpty (shape : List Nat) (d : DType) : Tensor :=
  ⟨shape, d, true, true, List.replicate shape.prod none⟩

/-- `at::zeros_like(t)`: same shape and dtype as `t`, every cell zero. -/
def zerosLike (t : Tensor) : Tensor :=
  ⟨t.shape, t.dtype, t.isCuda, t.contiguous, List.replicate t.numel (some 0)⟩

/-- Errors raised by the dispatch layer before any kernel launch:
`TORCH_CHECK` failures from `CHECK_INPUT` and the `AT_ERROR` in the
`default:` arm of each channel-dispatch `switch`. -/
inductive RasterError
  | invalidInput : String → RasterError
  | unsupportedChannels : Nat → RasterError
deriving DecidableEq

/-- Modelled from the spec: `CHECK_INPUT` is defined in `Common.h`, which is
not among the shown sources; it is the standard torch-extension pair of
checks that the tensor is a CUDA tensor and that it is contiguous
(shape/stride validation is an external collaborator per the spec). -/
def CHECK_INPUT (t : Tensor) : Bool := t.isCuda && t.contiguous

/-- Runs `CHECK_INPUT` on each named tensor in order, raising on the first
failure. -/
def checkInputs : List (String × Tensor) → Except RasterError Unit
  | [] => .ok ()
  | (n, t) :: rest => if CHECK_INPUT t then checkInputs rest else .error (.invalidInput n)

/-- The check list entry contributed by an optional tensor argument
(`if (x.has_value()) CHECK_INPUT(x.value());`). -/
def optCheck (name : String) : Option Tensor → List (String × Tensor)
  | some t => [(name, t)]
  | none => []

/-- The channel widths enumerated by the `__LAUNCH_KERNEL__` cases of every
channel-dispatch `switch` in the file. -/
def supported_channels : List Nat :=
  [1, 2, 3, 4, 5, 8, 9, 16, 17, 32, 33, 64, 65, 128, 129, 256, 257, 512, 513]

/-- One launch of a pixel-rasterization kernel: the kernel family, the
template channel width `N` it was instantiated at, its tensor inputs, its
optional tensor inputs, and the output buffers handed to it. -/
structure KernelLaunch where
  kernel : String
  width : Nat
  ins : List Tensor
  optIns : List (Option Tensor)
  outs : List Tensor
deriving DecidableEq

/-- Result of one wrapper call: the kernel launches it performed, in order,
and either its returned tensors or the error it raised. -/
structure RunResult (O : Type) where
  launches : List KernelLaunch
  result : Except RasterError O

/-- `true` exactly on `Except.error`. -/
def isErr {ε α : Type} : Except ε α → Bool
  | .error _ => true
  | .ok _ => false

----------------------------------------------------------------
-- 3DGS forward / backward
----------------------------------------------------------------

/-- Arguments of `rasterize_to_pixels_3dgs_fwd`. -/
structure Fwd3dgsInput where
  means2d : Tensor
  conics : Tensor
  colors : Tensor
  opacities : Tensor
  backgrounds : Option Tensor
  masks : Option Tensor
  image_width : Nat
  image_height : Nat
  tile_size : Nat
  tile_offsets : Tensor
  flatten_ids : Tensor
deriving DecidableEq

/-- The `CHECK_INPUT` sequence at the top of `rasterize_to_pixels_3dgs_fwd`. -/
def fwd3dgsChecks (inp : Fwd3dgsInput) : List (String × Tensor) :=
  [("means2d", inp.means2d), ("conics", inp.conics), ("colors", inp.colors),
   ("opacities", inp.opacities), ("tile_offsets", inp.tile_offsets),
   ("flatten_ids", inp.flatten_ids)]
    ++ optCheck "backgrounds" inp.backgrounds ++ optCheck "masks" inp.masks

/-- Embedding of `rasterize_to_pixels_3dgs_fwd`: validates inputs, allocates
`renders`/`alphas`/`last_ids` with `at::empty`, then dispatches on
`colors.size(-1)` over `supported_channels`, raising `AT_ERROR` otherwise. -/
def rasterize_to_pixels_3dgs_fwd (inp : Fwd3dgsInput) :
    RunResult (Tensor × Tensor × Tensor) :=
  match checkInputs (fwd3dgsChecks inp) with
  | .error e => ⟨[], .error e⟩
  | .ok _ =>
    let image_dims := inp.tile_offsets.shape.take (inp.tile_offsets.shape.length - 2)
    let channels := inp.colors.sizeLast
    let renders := atEmpty (image_dims ++ [inp.image_height, inp.image_width, channels])
      inp.means2d.dtype
    let alphas := atEmpty (image_dims ++ [inp.image_height, inp.image_width, 1])
      inp.means2d.dtype
    let last_ids := atEmpty (image_dims ++ [inp.image_height, inp.image_width]) DType.int32
    if channels ∈ supported_channels then
      ⟨[⟨"rasterize_to_pixels_3dgs_fwd_kernel", channels,
         [inp.means2d, inp.conics, inp.colors, inp.opacities, inp.tile_offsets,
          inp.flatten_ids],
         [inp.backgrounds, inp.masks],
         [renders, alphas, last_ids]⟩],
       .ok (renders, alphas, last_ids)⟩
    else ⟨[], .error (.unsupportedChannels channels)⟩

/-- Arguments of `rasterize_to_pixels_3dgs_bwd`. -/
structure Bwd3dgsInput where
  means2d : Tensor
  conics : Tensor
  colors : Tensor
  opacities : Tensor
  backgrounds : Option Tensor
  masks : Option Tensor
  image_width : Nat
  image_height : Nat
  tile_size : Nat
  tile_offsets : Tensor
  flatten_ids : Tensor
  render_alphas : Tensor
  last_ids : Tensor
  v_render_colors : Tensor
  v_render_alphas : Tensor
  absgrad : Bool
deriving DecidableEq

/-- The `CHECK_INPUT` sequence at the top of `rasterize_to_pixels_3dgs_bwd`. -/
def bwd3dgsChecks (inp : Bwd3dgsInput) : List (String × Tensor) :=
  [("means2d", inp.means2d), ("conics", inp.conics), ("colors", inp.colors),
   ("opacities", inp.opacities), ("tile_offsets", inp.tile_offsets),
   ("flatten_ids", inp.flatten_ids), ("render_alphas", inp.render_alphas),
   ("last_ids", inp.last_ids), ("v_render_colors", inp.v_render_colors),
   ("v_render_alphas", inp.v_render_alphas)]
    ++ optCheck "backgrounds" inp.backgrounds ++ optCheck "masks" inp.masks

/-- Embedding of `rasterize_to_pixels_3dgs_bwd`: validates inputs,
zero-initializes the per-primitive gradient buffers with `at::zeros_like`,
builds the optional absolute-gradient buffer only when `absgrad` is set
(the first returned tensor is an undefined tensor — modelled `none` —
otherwise), then dispatches on the channel width. -/
def rasterize_to_pixels_3dgs_bwd (inp : Bwd3dgsInput) :
    RunResult (Option Tensor × Tensor × Tensor × Tensor × Tensor) :=
  match checkInputs (bwd3dgsChecks inp) with
  | .error e => ⟨[], .error e⟩
  | .ok _ =>
    let channels := inp.colors.sizeLast
    let v_means2d := zerosLike inp.means2d
    let v_conics := zerosLike inp.conics
    let v_colors := zerosLike inp.colors
    let v_opacities := zerosLike inp.opacities
    let v_means2d_abs : Option Tensor :=
      if inp.absgrad then some (zerosLike inp.means2d) else none
    if channels ∈ supported_channels then
      ⟨[⟨"rasterize_to_pixels_3dgs_bwd_kernel", channels,
         [inp.means2d, inp.conics, inp.colors, inp.opacities, inp.tile_offsets,
          inp.flatten_ids, inp.render_alphas, inp.last_ids, inp.v_render_colors,
          inp.v_render_alphas],
         [inp.backgrounds, inp.masks, v_means2d_abs],
         [v_means2d, v_conics, v_colors, v_opacities]⟩],
       .ok (v_means2d_abs, v_means2d, v_conics, v_colors, v_opacities)⟩
    else ⟨[], .error (.unsupportedChannels channels)⟩

----------------------------------------------------------------
-- 2DGS forward / backward
----------------------------------------------------------------

/-- Arguments of `rasterize_to_pixels_2dgs_fwd`. -/
structure Fwd2dgsInput where
  means2d : Tensor
  ray_transforms : Tensor
  colors : Tensor
  opacities : Tensor
  normals : Tensor
  backgrounds : Option Tensor
  masks : Option Tensor
  image_width : Nat
  image_height : Nat
  tile_size : Nat
  tile_offsets : Tensor
  flatten_ids : Tensor
deriving DecidableEq

/-- The `CHECK_INPUT` sequence at the top of `rasterize_to_pixels_2dgs_fwd`. -/
def fwd2dgsChecks (inp : Fwd2dgsInput) : List (String × Tensor) :=
  [("means2d", inp.means2d), ("ray_transforms", inp.ray_transforms),
   ("colors", inp.colors), ("opacities", inp.opacities), ("normals", inp.normals),
   ("tile_offsets", inp.tile_offsets), ("flatten_ids", inp.flatten_ids)]
    ++ optCheck "backgrounds" inp.backgrounds ++ optCheck "masks" inp.masks

/-- Embedding of `rasterize_to_pixels_2dgs_fwd`: validates inputs, allocates
the seven output buffers with `at::empty`, then dispatches on the channel
width.  Return order follows the source `make_tuple`: renders, alphas,
render_normals, render_distort, render_median, last_ids, median_ids. -/
def rasterize_to_pixels_2dgs_fwd (inp : Fwd2dgsInput) :
    RunResult (Tensor × Tensor × Tensor × Tensor × Tensor × Tensor × Tensor) :=
  match checkInputs (fwd2dgsChecks inp) with
  | .error e => ⟨[], .error e⟩
  | .ok _ =>
    let image_dims := inp.tile_offsets.shape.take (inp.tile_offsets.shape.length - 2)
    let channels := inp.colors.sizeLast
    let renders := atEmpty (image_dims ++ [inp.image_height, inp.image_width, channels])
      inp.means2d.dtype
    let alphas := atEmpty (image_dims ++ [inp.image_height, inp.image_width, 1])
      inp.means2d.dtype
    let last_ids := atEmpty (image_dims ++ [inp.image_height, inp.image_width]) DType.int32
    let median_ids := atEmpty (image_dims ++ [inp.image_height, inp.image_width]) DType.int32
    let render_normals := atEmpty (image_dims ++ [inp.image_height, inp.image_width, 3])
      inp.means2d.dtype
    let render_distort := atEmpty (image_dims ++ [inp.image_height, inp.image_width, 1])
      inp.means2d.dtype
    let render_median := atEmpty (image_dims ++ [inp.image_height, inp.image_width, 1])
      inp.means2d.dtype
    if channels ∈ supported_channels then
      ⟨[⟨"rasterize_to_pixels_2dgs_fwd_kernel", channels,
         [inp.means2d, inp.ray_transforms, inp.colors, inp.opacities, inp.normals,
          inp.tile_offsets, inp.flatten_ids],
         [inp.backgrounds, inp.masks],
         [renders, alphas, render_normals, render_distort, render_median,
          last_ids, median_ids]⟩],
       .ok (renders, alphas, render_normals, render_distort, render_median,
            last_ids, median_ids)⟩
    else ⟨[], .error (.unsupportedChannels channels)⟩

/-- Arguments of `rasterize_to_pixels_2dgs_bwd`. -/
structure Bwd2dgsInput where
  means2d : Tensor
  ray_transforms : Tensor
  colors : Tensor
  opacities : Tensor
  normals : Tensor
  densify : Tensor
  backgrounds : Option Tensor
  masks : Option Tensor
  image_width : Nat
  image_height : Nat
  tile_size : Nat
  tile_offsets : Tensor
  flatten_ids : Tensor
  render_colors : Tensor
  render_alphas : Tensor
  last_ids : Tensor
  median_ids : Tensor
  v_render_colors : Tensor
  v_render_alphas : Tensor
  v_render_normals : Tensor
  v_render_distort : Tensor
  v_render_median : Tensor
  absgrad : Bool
deriving DecidableEq

/-- The `CHECK_INPUT` sequence at the top of `rasterize_to_pixels_2dgs_bwd`. -/
def bwd2dgsChecks (inp : Bwd2dgsInput) : List (String × Tensor) :=
  [("means2d", inp.means2d), ("ray_transforms", inp.ray_transforms),
   ("colors", inp.colors), ("opacities", inp.opacities), ("normals", inp.normals),
   ("densify", inp.densify), ("tile_offsets", inp.tile_offsets),
   ("flatten_ids", inp.flatten_ids), ("render_colors", inp.render_colors),
   ("render_alphas", inp.render_alphas), ("last_ids", inp.last_ids),
   ("median_ids", inp.median_ids), ("v_render_colors", inp.v_render_colors),
   ("v_render_alphas", inp.v_render_alphas), ("v_render_normals", inp.v_render_normals),
   ("v_render_distort", inp.v_render_distort), ("v_render_median", inp.v_render_median)]
    ++ optCheck "backgrounds" inp.backgrounds ++ optCheck "masks" inp.masks

/-- Embedding of `rasterize_to_pixels_2dgs_bwd`: validates inputs,
zero-initializes the six per-primitive gradient buffers with
`at::zeros_like` (plus the optional absolute-gradient buffer when `absgrad`
is set; otherwise the first returned tensor stays undefined, modelled
`none`), then dispatches on the channel width. -/
def rasterize_to_pixels_2dgs_bwd (inp : Bwd2dgsInput) :
    RunResult (Option Tensor × Tensor × Tensor × Tensor × Tensor × Tensor × Tensor) :=
  match checkInputs (bwd2dgsChecks inp) with
  | .error e => ⟨[], .error e⟩
  | .ok _ =>
    let channels := inp.colors.sizeLast
    let v_means2d := zerosLike inp.means2d
    let v_ray_transforms := zerosLike inp.ray_transforms
    let v_colors := zerosLike inp.colors
    let v_normals := zerosLike inp.normals
    let v_opacities := zerosLike inp.opacities
    let v_means2d_abs : Option Tensor :=
      if inp.absgrad then some (zerosLike inp.means2d) else none
    let v_densify := zerosLike inp.densify
    if channels ∈ supported_channels then
      ⟨[⟨"rasterize_to_pixels_2dgs_bwd_kernel", channels,
         [inp.means2d, inp.ray_transforms, inp.colors, inp.opacities, inp.normals,
          inp.densify, inp.tile_offsets, inp.flatten_ids, inp.render_colors,
          inp.render_alphas, inp.last_ids, inp.median_ids, inp.v_render_colors,
          inp.v_render_alphas, inp.v_render_normals, inp.v_render_distort,
          inp.v_render_median],
         [inp.backgrounds, inp.masks, v_means2d_abs],
         [v_means2d, v_ray_transforms, v_colors, v_opacities, v_normals, v_densify]⟩],
       .ok (v_means2d_abs, v_means2d, v_ray_transforms, v_colors, v_opacities,
            v_normals, v_densify)⟩
    else ⟨[], .error (.unsupportedChannels channels)⟩

----------------------------------------------------------------
-- 3DGS from world forward / backward
----------------------------------------------------------------

/-- Arguments of `rasterize_to_pixels_from_world_3dgs_fwd`.  The camera-model
tag, shutter type, unscented-transform parameters and f-theta coefficients
are opaque to the dispatch logic and are modelled as plain tags. -/
structure FwdWorldInput where
  means : Tensor
  quats : Tensor
  scales : Tensor
  colors : Tensor
  opacities : Tensor
  backgrounds : Option Tensor
  masks : Option Tensor
  image_width : Nat
  image_height : Nat
  tile_size : Nat
  viewmats0 : Tensor
  viewmats1 : Option Tensor
  Ks : Tensor
  camera_model : Nat
  ut_params : Unit
  rs_type : Nat
  radial_coeffs : Option Tensor
  tangential_coeffs : Option Tensor
  thin_prism_coeffs : Option Tensor
  ftheta_coeffs : Unit
  tile_offsets : Tensor
  flatten_ids : Tensor
deriving DecidableEq

/-- The `CHECK_INPUT` sequence at the top of
`rasterize_to_pixels_from_world_3dgs_fwd` (note the source checks neither
`viewmats0`, `viewmats1`, `Ks` nor the distortion coefficient tensors). -/
def fwdWorldChecks (inp : FwdWorldInput) : List (String × Tensor) :=
  [("means", inp.means), ("quats", inp.quats), ("scales", inp.scales),
   ("colors", inp.colors), ("opacities", inp.opacities),
   ("tile_offsets", inp.tile_offsets), ("flatten_ids", inp.flatten_ids)]
    ++ optCheck "backgrounds" inp.backgrounds ++ optCheck "masks" inp.masks

/-- The condition of the `assert (channels == 3)` statement that
`rasterize_to_pixels_from_world_3dgs_fwd` executes before its dispatch
`switch`.  It is a C `assert`: compiled out under `NDEBUG`, so the dispatch
below proceeds regardless of it, as in release builds; the asserted
predicate itself is captured here. -/
def from_world_fwd_assert_cond (inp : FwdWorldInput) : Bool :=
  inp.colors.sizeLast == 3

/-- Embedding of `rasterize_to_pixels_from_world_3dgs_fwd`: validates
inputs, allocates `renders`/`alphas`/`last_ids` with `at::empty` (leading
dims = batch dims of `means` plus the camera count from `viewmats0`), then
dispatches on the channel width over the same `supported_channels` set as
every other entry point. -/
def rasterize_to_pixels_from_world_3dgs_fwd (inp : FwdWorldInput) :
    RunResult (Tensor × Tensor × Tensor) :=
  match checkInputs (fwdWorldChecks inp) with
  | .error e => ⟨[], .error e⟩
  | .ok _ =>
    let batch_dims := inp.means.shape.take (inp.means.shape.length - 2)
    let nCam := inp.viewmats0.sizeNeg3
    let channels := inp.colors.sizeLast
    let renders := atEmpty
      (batch_dims ++ [nCam, inp.image_height, inp.image_width, channels])
      inp.means.dtype
    let alphas := atEmpty
      (batch_dims ++ [nCam, inp.image_height, inp.image_width, 1]) inp.means.dtype
    let last_ids := atEmpty
      (batch_dims ++ [nCam, inp.image_height, inp.image_width]) DType.int32
    if channels ∈ supported_channels then
      ⟨[⟨"rasterize_to_pixels_from_world_3dgs_fwd_kernel", channels,
         [inp.means, inp.quats, inp.scales, inp.colors, inp.opacities,
          inp.viewmats0, inp.Ks, inp.tile_offsets, inp.flatten_ids],
         [inp.backgrounds, inp.masks, inp.viewmats1, inp.radial_coeffs,
          inp.tangential_coeffs, inp.thin_prism_coeffs],
         [renders, alphas, last_ids]⟩],
       .ok (renders, alphas, last_ids)⟩
    else ⟨[], .error (.unsupportedChannels channels)⟩

/-- Arguments of `rasterize_to_pixels_from_world_3dgs_bwd`. -/
structure BwdWorldInput where
  means : Tensor
  quats : Tensor
  scales : Tensor
  colors : Tensor
  opacities : Tensor
  backgrounds : Option Tensor
  masks : Option Tensor
  image_width : Nat
  image_height : Nat
  tile_size : Nat
  viewmats0 : Tensor
  viewmats1 : Option Tensor
  Ks : Tensor
  camera_model : Nat
  ut_params : Unit
  rs_type : Nat
  radial_coeffs : Option Tensor
  tangential_coeffs : Option Tensor
  thin_prism_coeffs : Option Tensor
  ftheta_coeffs : Unit
  tile_offsets : Tensor
  flatten_ids : Tensor
  render_alphas : Tensor
  last_ids : Tensor
  v_render_colors : Tensor
  v_render_alphas : Tensor
deriving DecidableEq

/-- The `CHECK_INPUT` sequence at the top of
`rasterize_to_pixels_from_world_3dgs_bwd`. -/
def bwdWorldChecks (inp : BwdWorldInput) : List (String × Tensor) :=
  [("means", inp.means), ("quats", inp.quats), ("scales", inp.scales),
   ("colors", inp.colors), ("opacities", inp.opacities),
   ("tile_offsets", inp.tile_offsets), ("flatten_ids", inp.flatten_ids),
   ("render_alphas", inp.render_alphas), ("last_ids", inp.last_ids),
   ("v_render_colors", inp.v_render_colors), ("v_render_alphas", inp.v_render_alphas)]
    ++ optCheck "backgrounds" inp.backgrounds ++ optCheck "masks" inp.masks

/-- Embedding of `rasterize_to_pixels_from_world_3dgs_bwd`: validates
inputs, zero-initializes the five per-primitive gradient buffers with
`at::zeros_like`, then dispatches on the channel width. -/
def rasterize_to_pixels_from_world_3dgs_bwd (inp : BwdWorldInput) :
    RunResult (Tensor × Tensor × Tensor × Tensor × Tensor) :=
  match checkInputs (bwdWorldChecks inp) with
  | .error e => ⟨[], .error e⟩
  | .ok _ =>
    let channels := inp.colors.sizeLast
    let v_means := zerosLike inp.means
    let v_quats := zerosLike inp.quats
    let v_scales := zerosLike inp.scales
    let v_colors := zerosLike inp.colors
    let v_opacities := zerosLike inp.opacities
    if channels ∈ supported_channels then
      ⟨[⟨"rasterize_to_pixels_from_world_3dgs_bwd_kernel", channels,
         [inp.means, inp.quats, inp.scales, inp.colors, inp.opacities,
          inp.viewmats0, inp.Ks, inp.tile_offsets, inp.flatten_ids,
          inp.render_alphas, inp.last_ids, inp.v_render_colors, inp.v_render_alphas],
         [inp.backgrounds, inp.masks, inp.viewmats1, inp.radial_coeffs,
          inp.tangential_coeffs, inp.thin_prism_coeffs],
         [v_means, v_quats, v_scales, v_colors, v_opacities]⟩],
       .ok (v_means, v_quats, v_scales, v_colors, v_opacities)⟩
    else ⟨[], .error (.unsupportedChannels channels)⟩

----------------------------------------------------------------
-- Index extraction (two-pass stream compaction)
----------------------------------------------------------------

/-- Inclusive running sums starting from `acc`. -/
def cumsumFrom (acc : Nat) : List Nat → List Nat
  | [] => []
  | x :: xs => (acc + x) :: cumsumFrom (acc + x) xs

/-- `at::cumsum(l, 0)`: inclusive prefix sums. -/
def cumsumList (l : List Nat) : List Nat := cumsumFrom 0 l

/-- `chunk_starts = at::sub(cumsum, chunk_cnts)`: the per-pixel write
offsets. -/
def chunkStartsOf (cnts : List Nat) : List Nat :=
  List.zipWith (· - ·) (cumsumList cnts) cnts

/-- `n_elems = cumsum[-1].item()`: the total number of output pairs. -/
def nElemsOf (cnts : List Nat) : Nat := (cumsumList cnts).getLastD 0

/-- The exclusive prefix sums of a list, written independently of the
`cumsum`/`sub` route the source takes. -/
def exclusiveSums (l : List Nat) : List Nat :=
  (List.range l.length).map (fun i => ((l.take i).sum))

/-- The non-output arguments shared by both launches of an
index-extraction kernel.  `geoms` holds `conics` for the 3DGS kernel and
`ray_transforms` for the 2DGS kernel. -/
structure IdxKernelCommon where
  range_start : Nat
  range_end : Nat
  transmittances : Tensor
  means2d : Tensor
  geoms : Tensor
  opacities : Tensor
  image_width : Nat
  image_height : Nat
  tile_size : Nat
  tile_offsets : Tensor
  flatten_ids : Tensor
deriving DecidableEq

/-- One launch of an index-extraction kernel: the shared non-output
arguments, the optional write-offset input, and flags recording which
output buffers were supplied (`chunk_cnts` in the counting pass;
`gaussian_ids`/`pixel_ids` in the compaction pass). -/
structure IdxLaunch where
  common : IdxKernelCommon
  chunk_starts : Option (List Nat)
  chunk_cnts : Bool
  gaussian_ids : Bool
  pixel_ids : Bool
deriving DecidableEq

/-- Modelled from the spec: the index-extraction kernels
(`launch_rasterize_to_indices_3dgs_kernel` / `_2dgs_kernel`) are not among
the shown sources.  Per the spec they are pure functions of their non-output
arguments that walk, for each pixel, the pixel's contribution range
restricted to `[range_start, range_end)` with the forward skip predicate and
enumerate the contributing gaussian ids in order.  A kernel is therefore
modelled as an arbitrary such per-pixel enumeration, passed as a parameter:
the counting pass writes the per-pixel lengths, the compaction pass writes
the enumerated pairs at the per-pixel offsets. -/
def IdxKernel : Type := IdxKernelCommon → List (List ℤ)

/-- The pixel-id column of the compacted output: pixel `i` repeated once per
pair that pixel `i` contributes. -/
def pixelIdsOf (perPixel : List (List ℤ)) : List ℤ :=
  (perPixel.enum.map (fun p => List.replicate p.2.length ((p.1 : ℕ) : ℤ))).flatten

/-- A `kLong` tensor of shape `[n]` holding `vals` (the compaction buffers
after the kernel has written them; writing each pixel's pairs at that
pixel's exclusive-prefix-sum offset concatenates the per-pixel lists). -/
def longTensor (n : Nat) (vals : List ℤ) : Tensor :=
  ⟨[n], DType.int64, true, true, vals.map (fun v => some (v : ℚ))⟩

/-- Result of an index-extraction wrapper call. -/
structure IdxRunResult where
  launches : List IdxLaunch
  result : Except RasterError (Tensor × Tensor)

/-- Output-buffer selection of the counting pass (only `chunk_cnts`). -/
def countingOuts (l : IdxLaunch) : Prop :=
  l.chunk_starts = none ∧ l.chunk_cnts = true ∧
    l.gaussian_ids = false ∧ l.pixel_ids = false

/-- Arguments of `rasterize_to_indices_3dgs`. -/
structure Idx3dgsInput where
  range_start : Nat
  range_end : Nat
  transmittances : Tensor
  means2d : Tensor
  conics : Tensor
  opacities : Tensor
  image_width : Nat
  image_height : Nat
  tile_size : Nat
  tile_offsets : Tensor
  flatten_ids : Tensor
deriving DecidableEq

/-- The `CHECK_INPUT` sequence of `rasterize_to_indices_3dgs`. -/
def idx3dgsChecks (inp : Idx3dgsInput) : List (String × Tensor) :=
  [("means2d", inp.means2d), ("conics", inp.conics), ("opacities", inp.opacities),
   ("tile_offsets", inp.tile_offsets), ("flatten_ids", inp.flatten_ids)]

/-- The shared kernel arguments built from `rasterize_to_indices_3dgs`'s
inputs. -/
def idx3dgsCommon (inp : Idx3dgsInput) : IdxKernelCommon :=
  ⟨inp.range_start, inp.range_end, inp.transmittances, inp.means2d, inp.conics,
   inp.opacities, inp.image_width, inp.image_height, inp.tile_size,
   inp.tile_offsets, inp.flatten_ids⟩

/-- Embedding of `rasterize_to_indices_3dgs`, parameterized by the modelled
kernel `K`: when `flatten_ids` is nonempty, a counting launch produces the
per-pixel counts, which are prefix-summed (`cumsum` then `sub`) into write
offsets and a total `n_elems`; when `n_elems` is nonzero a compaction
launch fills the two freshly allocated `kLong` arrays of length `n_elems`. -/
def rasterize_to_indices_3dgs (K : IdxKernel) (inp : Idx3dgsInput) : IdxRunResult :=
  match checkInputs (idx3dgsChecks inp) with
  | .error e => ⟨[], .error e⟩
  | .ok _ =>
    let n_isects := inp.flatten_ids.size0
    let common := idx3dgsCommon inp
    if n_isects ≠ 0 then
      let perPixel := K common
      let chunk_cnts := perPixel.map List.length
      let n_elems := nElemsOf chunk_cnts
      if n_elems ≠ 0 then
        ⟨[⟨common, none, true, false, false⟩,
          ⟨common, some (chunkStartsOf chunk_cnts), false, true, true⟩],
         .ok (longTensor n_elems perPixel.flatten,
              longTensor n_elems (pixelIdsOf perPixel))⟩
      else
        ⟨[⟨common, none, true, false, false⟩],
         .ok (atEmpty [n_elems] DType.int64, atEmpty [n_elems] DType.int64)⟩
    else
      ⟨[], .ok (atEmpty [0] DType.int64, atEmpty [0] DType.int64)⟩

/-- Arguments of `rasterize_to_indices_2dgs`. -/
structure Idx2dgsInput where
  range_start : Nat
  range_end : Nat
  transmittances : Tensor
  means2d : Tensor
  ray_transforms : Tensor
  opacities : Tensor
  image_width : Nat
  image_height : Nat
  tile_size : Nat
  tile_offsets : Tensor
  flatten_ids : Tensor
deriving DecidableEq

/-- The `CHECK_INPUT` sequence of `rasterize_to_indices_2dgs`. -/
def idx2dgsChecks (inp : Idx2dgsInput) : List (String × Tensor) :=
  [("means2d", inp.means2d), ("ray_transforms", inp.ray_transforms),
   ("opacities", inp.opacities), ("tile_offsets", inp.tile_offsets),
   ("flatten_ids", inp.flatten_ids)]

/-- The shared kernel arguments built from `rasterize_to_indices_2dgs`'s
inputs. -/
def idx2dgsCommon (inp : Idx2dgsInput) : IdxKernelCommon :=
  ⟨inp.range_start, inp.range_end, inp.transmittances, inp.means2d,
   inp.ray_transforms, inp.opacities, inp.image_width, inp.image_height,
   inp.tile_size, inp.tile_offsets, inp.flatten_ids⟩

/-- Embedding of `rasterize_to_indices_2dgs`, structured exactly like
`rasterize_to_indices_3dgs` but walking the 2DGS primitive arrays. -/
def rasterize_to_indices_2dgs (K : IdxKernel) (inp : Idx2dgsInput) : IdxRunResult :=
  match checkInputs (idx2dgsChecks inp) with
  | .error e => ⟨[], .error e⟩
  | .ok _ =>
    let n_isects := inp.flatten_ids.size0
    let common := idx2dgsCommon inp
    if n_isects ≠ 0 then
      let perPixel := K common
      let chunk_cnts := perPixel.map List.length
      let n_elems := nElemsOf chunk_cnts
      if n_elems ≠ 0 then
        ⟨[⟨common, none, true, false, false⟩,
          ⟨common, some (chunkStartsOf chunk_cnts), false, true, true⟩],
         .ok (longTensor n_elems perPixel.flatten,
              longTensor n_elems (pixelIdsOf perPixel))⟩
      else
        ⟨[⟨common, none, true, false, false⟩],
         .ok (atEmpty [n_elems] DType.int64, atEmpty [n_elems] DType.int64)⟩
    else
      ⟨[], .ok (atEmpty [0] DType.int64, atEmpty [0] DType.int64)⟩

----------------------------------------------------------------
-- Spec-modelled kernel behaviour
----------------------------------------------------------------

/-- Modelled from the spec: per-pixel forward accumulation state of the
compositing kernels (which are not among the shown sources): transmittance,
accumulated color and the last-contributing index. -/
structure PixelState where
  T : ℚ
  color : List ℚ
  lastIdx : Nat
deriving DecidableEq

/-- Modelled from the spec: the forward per-pixel walk over the tile's
sorted range.  Each step carries the evaluated alpha and primitive color,
`none` meaning the primitive is non-contributing at this pixel and is
skipped; blending is front-to-back with early termination once the
transmittance falls below `eps`. -/
def forwardWalk (eps : ℚ) : PixelState → Nat → List (Option (ℚ × List ℚ)) → PixelState
  | s, idx, [] => ⟨s.T, s.color, idx⟩
  | s, idx, none :: rest => forwardWalk eps s (idx + 1) rest
  | s, idx, some (a, c) :: rest =>
    let w := a * s.T
    let color := List.zipWith (fun ci pi => ci + w * pi) s.color c
    let T2 := s.T * (1 - a)
    if T2 < eps then ⟨T2, color, idx⟩
    else forwardWalk eps ⟨T2, color, s.lastIdx⟩ (idx + 1) rest

/-- Final per-pixel outputs of the forward compositor: rendered color and
rendered alpha. -/
structure TilePixelOut where
  color : List ℚ
  alpha : ℚ
deriving DecidableEq

/-- The initial accumulation state: transmittance 1, zero color. -/
def initState (channels : Nat) : PixelState := ⟨1, List.replicate channels 0, 0⟩

/-- The compositor's final blend: rendered color = accumulated color plus
remaining transmittance times background; rendered alpha = one minus the
remaining transmittance. -/
def finishPixel (bg : List ℚ) (s : PixelState) : TilePixelOut :=
  ⟨List.zipWith (fun ci bi => ci + s.T * bi) s.color bg, 1 - s.T⟩

/-- Modelled from the spec: one tile of the forward rasterization kernel
(the kernels themselves are not among the shown sources).  If the per-tile
mask is present and false the tile is skipped entirely: every pixel receives
the output of an empty walk — pure background color and zero alpha — and no
primitive is evaluated.  Otherwise every pixel walks its contribution list.
The second component counts the primitive evaluations performed. -/
def renderTile (channels : Nat) (mask : Option Bool) (bg : List ℚ) (eps : ℚ)
    (pixels : List (List (Option (ℚ × List ℚ)))) : List TilePixelOut × Nat :=
  if mask = some false then
    (pixels.map (fun _ => finishPixel bg (initState channels)), 0)
  else
    (pixels.map (fun steps => finishPixel bg (forwardWalk eps (initState channels) 0 steps)),
     pixels.foldl (fun n steps => n + steps.length) 0)

/-- Modelled from the spec: the backward kernels (not among the shown
sources) only write gradients by atomic accumulation into the
zero-initialized per-primitive buffers; the final buffer is the initial
buffer plus the elementwise sum of all per-pixel contributions. -/
def accumulateGrads (init : List ℚ) (contribs : List (List ℚ)) : List ℚ :=
  contribs.foldl (fun acc c => List.zipWith (· + ·) acc c) init

----------------------------------------------------------------
-- Concrete sample inputs (used by the closed instance theorems)
----------------------------------------------------------------

/-- A contiguous CUDA float tensor of the given shape with zero-filled data. -/
def sampleT (shape : List Nat) : Tensor :=
  ⟨shape, DType.float32, true, true, List.replicate shape.prod (some 0)⟩

/-- A non-contiguous CUDA tensor, rejected by `CHECK_INPUT`. -/
def badT : Tensor := ⟨[2, 2], DType.float32, true, false, List.replicate 4 (some 0)⟩

/-- A valid 3DGS forward call with 3 channels. -/
def fwd3dgsW : Fwd3dgsInput :=
  ⟨sampleT [2, 2], sampleT [2, 3], sampleT [2, 3], sampleT [2], none, none,
   16, 16, 16, sampleT [1, 1], sampleT [4]⟩

/-- A 3DGS forward call with the unsupported channel width 6. -/
def fwd3dgsBad : Fwd3dgsInput :=
  ⟨sampleT [2, 2], sampleT [2, 3], sampleT [2, 6], sampleT [2], none, none,
   16, 16, 16, sampleT [1, 1], sampleT [4]⟩

/-- A valid 3DGS backward call with 3 channels, `absgrad` off. -/
def bwd3dgsW : Bwd3dgsInput :=
  ⟨sampleT [2, 2], sampleT [2, 3], sampleT [2, 3], sampleT [2], none, none,
   16, 16, 16, sampleT [1, 1], sampleT [4], sampleT [1], sampleT [1],
   sampleT [1], sampleT [1], false⟩

/-- A valid 3DGS backward call with 3 channels, `absgrad` on. -/
def bwd3dgsWA : Bwd3dgsInput :=
  ⟨sampleT [2, 2], sampleT [2, 3], sampleT [2, 3], sampleT [2], none, none,
   16, 16, 16, sampleT [1, 1], sampleT [4], sampleT [1], sampleT [1],
   sampleT [1], sampleT [1], true⟩

/-- A 3DGS backward call with the unsupported channel width 6. -/
def bwd3dgsBad : Bwd3dgsInput :=
  ⟨sampleT [2, 2], sampleT [2, 3], sampleT [2, 6], sampleT [2], none, none,
   16, 16, 16, sampleT [1, 1], sampleT [4], sampleT [1], sampleT [1],
   sampleT [1], sampleT [1], false⟩

/-- A valid 2DGS forward call with 3 channels. -/
def fwd2dgsW : Fwd2dgsInput :=
  ⟨sampleT [2, 2], sampleT [2, 3, 3], sampleT [2, 3], sampleT [2], sampleT [2, 3],
   none, none, 16, 16, 16, sampleT [1, 1], sampleT [4]⟩

/-- A 2DGS forward call with the unsupported channel width 6. -/
def fwd2dgsBad : Fwd2dgsInput :=
  ⟨sampleT [2, 2], sampleT [2, 3, 3], sampleT [2, 6], sampleT [2], sampleT [2, 3],
   none, none, 16, 16, 16, sampleT [1, 1], sampleT [4]⟩

/-- A valid 2DGS backward call with 3 channels, `absgrad` off. -/
def bwd2dgsW : Bwd2dgsInput :=
  ⟨sampleT [2, 2], sampleT [2, 3, 3], sampleT [2, 3], sampleT [2], sampleT [2, 3],
   sampleT [2, 2], none, none, 16, 16, 16, sampleT [1, 1], sampleT [4],
   sampleT [1], sampleT [1], sampleT [1], sampleT [1], sampleT [1], sampleT [1],
   sampleT [1], sampleT [1], sampleT [1], false⟩

/-- A valid 2DGS backward call with 3 channels, `absgrad` on. -/
def bwd2dgsWA : Bwd2dgsInput :=
  ⟨sampleT [2, 2], sampleT [2, 3, 3], sampleT [2, 3], sampleT [2], sampleT [2, 3],
   sampleT [2, 2], none, none, 16, 16, 16, sampleT [1, 1], sampleT [4],
   sampleT [1], sampleT [1], sampleT [1], sampleT [1], sampleT [1], sampleT [1],
   sampleT [1], sampleT [1], sampleT [1], true⟩

/-- A 2DGS backward call with the unsupported channel width 6. -/
def bwd2dgsBad : Bwd2dgsInput :=
  ⟨sampleT [2, 2], sampleT [2, 3, 3], sampleT [2, 6], sampleT [2], sampleT [2, 3],
   sampleT [2, 2], none, none, 16, 16, 16, sampleT [1, 1], sampleT [4],
   sampleT [1], sampleT [1], sampleT [1], sampleT [1], sampleT [1], sampleT [1],
   sampleT [1], sampleT [1], sampleT [1], false⟩

/-- A valid world-space forward call with 3 channels. -/
def fwdWorldW : FwdWorldInput :=
  ⟨sampleT [2, 3], sampleT [2, 4], sampleT [2, 3], sampleT [1, 2, 3], sampleT [1, 2],
   none, none, 16, 16, 16, sampleT [1, 4, 4], none, sampleT [1, 3, 3], 0, (), 0,
   none, none, none, (), sampleT [1, 1, 1], sampleT [4]⟩

/-- A world-space forward call with 1 channel: a width the dispatch switch
accepts but the `assert (channels == 3)` condition rejects. -/
def fwdWorldW1 : FwdWorldInput :=
  ⟨sampleT [2, 3], sampleT [2, 4], sampleT [2, 3], sampleT [1, 2, 1], sampleT [1, 2],
   none, none, 16, 16, 16, sampleT [1, 4, 4], none, sampleT [1, 3, 3], 0, (), 0,
   none, none, none, (), sampleT [1, 1, 1], sampleT [4]⟩

/-- A world-space forward call with the unsupported channel width 6. -/
def fwdWorldBad : FwdWorldInput :=
  ⟨sampleT [2, 3], sampleT [2, 4], sampleT [2, 3], sampleT [1, 2, 6], sampleT [1, 2],
   none, none, 16, 16, 16, sampleT [1, 4, 4], none, sampleT [1, 3, 3], 0, (), 0,
   none, none, none, (), sampleT [1, 1, 1], sampleT [4]⟩

/-- A valid world-space backward call with 3 channels. -/
def bwdWorldW : BwdWorldInput :=
  ⟨sampleT [2, 3], sampleT [2, 4], sampleT [2, 3], sampleT [1, 2, 3], sampleT [1, 2],
   none, none, 16, 16, 16, sampleT [1, 4, 4], none, sampleT [1, 3, 3], 0, (), 0,
   none, none, none, (), sampleT [1, 1, 1], sampleT [4],
   sampleT [1], sampleT [1], sampleT [1], sampleT [1]⟩

/-- A world-space backward call with the unsupported channel width 6. -/
def bwdWorldBad : BwdWorldInput :=
  ⟨sampleT [2, 3], sampleT [2, 4], sampleT [2, 3], sampleT [1, 2, 6], sampleT [1, 2],
   none, none, 16, 16, 16, sampleT [1, 4, 4], none, sampleT [1, 3, 3], 0, (), 0,
   none, none, none, (), sampleT [1, 1, 1], sampleT [4],
   sampleT [1], sampleT [1], sampleT [1], sampleT [1]⟩

/-- A valid index-extraction call (3DGS) with a nonempty intersection list. -/
def idx3W : Idx3dgsInput :=
  ⟨0, 100, sampleT [1, 16, 16], sampleT [1, 2, 2], sampleT [1, 2, 3], sampleT [1, 2],
   16, 16, 16, sampleT [1, 1, 1], sampleT [4]⟩

/-- The same call with an empty intersection list (`flatten_ids` length 0). -/
def idx3W0 : Idx3dgsInput :=
  ⟨0, 100, sampleT [1, 16, 16], sampleT [1, 2, 2], sampleT [1, 2, 3], sampleT [1, 2],
   16, 16, 16, sampleT [1, 1, 1], sampleT [0]⟩

/-- An index-extraction call (3DGS) with a non-contiguous input. -/
def idx3Bad : Idx3dgsInput :=
  ⟨0, 100, sampleT [1, 16, 16], badT, sampleT [1, 2, 3], sampleT [1, 2],
   16, 16, 16, sampleT [1, 1, 1], sampleT [4]⟩

/-- A valid index-extraction call (2DGS) with a nonempty intersection list. -/
def idx2W : Idx2dgsInput :=
  ⟨0, 100, sampleT [1, 16, 16], sampleT [1, 2, 2], sampleT [1, 2, 3, 3], sampleT [1, 2],
   16, 16, 16, sampleT [1, 1, 1], sampleT [4]⟩

/-- The same call with an empty intersection list. -/
def idx2W0 : Idx2dgsInput :=
  ⟨0, 100, sampleT [1, 16, 16], sampleT [1, 2, 2], sampleT [1, 2, 3, 3], sampleT [1, 2],
   16, 16, 16, sampleT [1, 1, 1], sampleT [0]⟩

/-- An index-extraction call (2DGS) with a non-contiguous input. -/
def idx2Bad : Idx2dgsInput :=
  ⟨0, 100, sampleT [1, 16, 16], badT, sampleT [1, 2, 3, 3], sampleT [1, 2],
   16, 16, 16, sampleT [1, 1, 1], sampleT [4]⟩

/-- A sample modelled index kernel: two pixels, contributing one and two
primitives respectively. -/
def Ksample : IdxKernel := fun _ => [[5], [7, 8]]

/-- A sample modelled index kernel whose walk finds no contributing
primitive at any pixel. -/
def Kzero : IdxKernel := fun _ => [[], []]

----------------------------------------------------------------
-- Helper lemmas
----------------------------------------------------------------

theorem zipWith_sub_cumsumFrom (a : Nat) (l : List Nat) :
    List.zipWith (· - ·) (cumsumFrom a l) l
      = (List.range l.length).map (fun i => a + (l.take i).sum) := by
  induction l generalizing a with
  | nil => rfl
  | cons x xs ih =>
    show (a + x - x) :: List.zipWith (· - ·) (cumsumFrom (a + x) xs) xs = _
    rw [ih (a + x), Nat.add_sub_cancel, List.length_cons, List.range_succ_eq_map,
      List.map_cons, List.map_map]
    refine congrArg₂ (· :: ·) (by simp) ?_
    refine List.map_congr_left (fun i _ => ?_)
    simp [List.take_succ_cons, Nat.add_assoc]

theorem getLastD_cumsumFrom (a : Nat) (l : List Nat) :
    (cumsumFrom a l).getLastD a = a + l.sum := by
  induction l generalizing a with
  | nil => simp [cumsumFrom]
  | cons x xs ih =>
    show ((a + x) :: cumsumFrom (a + x) xs).getLastD a = _
    rw [List.getLastD_cons, ih (a + x), List.sum_cons, Nat.add_assoc]

theorem chunkStartsOf_eq_exclusiveSums (cnts : List Nat) :
    chunkStartsOf cnts = exclusiveSums cnts := by
  rw [chunkStartsOf, cumsumList, zipWith_sub_cumsumFrom]
  simp [exclusiveSums]

theorem nElemsOf_eq_sum (cnts : List Nat) :
    nElemsOf cnts = cnts.sum := by
  rw [nElemsOf, cumsumList]
  simpa using getLastD_cumsumFrom 0 cnts

theorem zipWith_add_getD (acc c : List ℚ) (p : Nat) (h : c.length = acc.length) :
    (List.zipWith (· + ·) acc c).getD p 0 = acc.getD p 0 + c.getD p 0 := by
  induction acc generalizing c p with
  | nil =>
    cases c with
    | nil => simp
    | cons b bs => simp at h
  | cons a as ih =>
    cases c with
    | nil => simp at h
    | cons b bs =>
      cases p with
      | zero => simp
      | succ q =>
        simpa using ih bs q (by simpa using h)

theorem zipWith_add_length (acc c : List ℚ) (h : c.length = acc.length) :
    (List.zipWith (· + ·) acc c).length = acc.length := by
  simp [h]

theorem accumulateGrads_getD_zero (init : List ℚ) (contribs : List (List ℚ)) (p : Nat)
    (hlen : ∀ c ∈ contribs, c.length = init.length)
    (hinit : init.getD p 0 = 0)
    (hzero : ∀ c ∈ contribs, c.getD p 0 = 0) :
    (accumulateGrads init contribs).getD p 0 = 0 := by
  induction contribs generalizing init with
  | nil => simpa [accumulateGrads] using hinit
  | cons c cs ih =>
    have hc : c.length = init.length := hlen c (by simp)
    have hstep : accumulateGrads init (c :: cs)
        = accumulateGrads (List.zipWith (· + ·) init c) cs := rfl
    rw [hstep]
    refine ih (List.zipWith (· + ·) init c) ?_ ?_ ?_
    · intro d hd
      rw [hlen d (by simp [hd]), zipWith_add_length init c hc]
    · rw [zipWith_add_getD init c p hc, hinit, hzero c (by simp)]
      norm_num
    · exact fun d hd => hzero d (by simp [hd])

theorem zipWith_bg_replicate (bg : List ℚ) :
    List.zipWith (fun ci bi => ci + 1 * bi) (List.replicate bg.length (0 : ℚ)) bg = bg := by
  induction bg with
  | nil => rfl
  | cons b bs ih =>
    have hr : List.replicate (b :: bs).length (0 : ℚ) = 0 :: List.replicate bs.length 0 := rfl
    rw [hr, List.zipWith_cons_cons, ih]
    norm_num

theorem finishPixel_init (bg : List ℚ) (c : Nat) (h : bg.length = c) :
    finishPixel bg (initState c) = ⟨bg, 0⟩ := by
  subst h
  unfold finishPixel initState
  refine congrArg₂ TilePixelOut.mk ?_ (by norm_num)
  simpa using zipWith_bg_replicate bg

----------------------------------------------------------------
-- Claim theorems
----------------------------------------------------------------

/-- C1: for each of the six pixel-rasterization entry points, on inputs that
pass the `CHECK_INPUT` validations, a channel count outside the fixed
supported set raises the unsupported-channels configuration error with no
kernel launched, while a channel count inside the set launches exactly one
kernel, specialized at that width. -/
theorem channel_width_dispatch :
    (∀ inp : Fwd3dgsInput, checkInputs (fwd3dgsChecks inp) = .ok () →
      (inp.colors.sizeLast ∈ supported_channels →
        ∃ l, (rasterize_to_pixels_3dgs_fwd inp).launches = [l] ∧
          l.width = inp.colors.sizeLast ∧
          l.kernel = "rasterize_to_pixels_3dgs_fwd_kernel") ∧
      (inp.colors.sizeLast ∉ supported_channels →
        (rasterize_to_pixels_3dgs_fwd inp).launches = [] ∧
        (rasterize_to_pixels_3dgs_fwd inp).result
          = .error (.unsupportedChannels inp.colors.sizeLast))) ∧
    (∀ inp : Bwd3dgsInput, checkInputs (bwd3dgsChecks inp) = .ok () →
      (inp.colors.sizeLast ∈ supported_channels →
        ∃ l, (rasterize_to_pixels_3dgs_bwd inp).launches = [l] ∧
          l.width = inp.colors.sizeLast ∧
          l.kernel = "rasterize_to_pixels_3dgs_bwd_kernel") ∧
      (inp.colors.sizeLast ∉ supported_channels →
        (rasterize_to_pixels_3dgs_bwd inp).launches = [] ∧
        (rasterize_to_pixels_3dgs_bwd inp).result
          = .error (.unsupportedChannels inp.colors.sizeLast))) ∧
    (∀ inp : Fwd2dgsInput, checkInputs (fwd2dgsChecks inp) = .ok () →
      (inp.colors.sizeLast ∈ supported_channels →
        ∃ l, (rasterize_to_pixels_2dgs_fwd inp).launches = [l] ∧
          l.width = inp.colors.sizeLast ∧
          l.kernel = "rasterize_to_pixels_2dgs_fwd_kernel") ∧
      (inp.colors.sizeLast ∉ supported_channels →
        (rasterize_to_pixels_2dgs_fwd inp).launches = [] ∧
        (rasterize_to_pixels_2dgs_fwd inp).result
          = .error (.unsupportedChannels inp.colors.sizeLast))) ∧
    (∀ inp : Bwd2dgsInput, checkInputs (bwd2dgsChecks inp) = .ok () →
      (inp.colors.sizeLast ∈ supported_channels →
        ∃ l, (rasterize_to_pixels_2dgs_bwd inp).launches = [l] ∧
          l.width = inp.colors.sizeLast ∧
          l.kernel = "rasterize_to_pixels_2dgs_bwd_kernel") ∧
      (inp.colors.sizeLast ∉ supported_channels →
        (rasterize_to_pixels_2dgs_bwd inp).launches = [] ∧
        (rasterize_to_pixels_2dgs_bwd inp).result
          = .error (.unsupportedChannels inp.colors.sizeLast))) ∧
    (∀ inp : FwdWorldInput, checkInputs (fwdWorldChecks inp) = .ok () →
      (inp.colors.sizeLast ∈ supported_channels →
        ∃ l, (rasterize_to_pixels_from_world_3dgs_fwd inp).launches = [l] ∧
          l.width = inp.colors.sizeLast ∧
          l.kernel = "rasterize_to_pixels_from_world_3dgs_fwd_kernel") ∧
      (inp.colors.sizeLast ∉ supported_channels →
        (rasterize_to_pixels_from_world_3dgs_fwd inp).launches = [] ∧
        (rasterize_to_pixels_from_world_3dgs_fwd inp).result
          = .error (.unsupportedChannels inp.colors.sizeLast))) ∧
    (∀ inp : BwdWorldInput, checkInputs (bwdWorldChecks inp) = .ok () →
      (inp.colors.sizeLast ∈ supported_channels →
        ∃ l, (rasterize_to_pixels_from_world_3dgs_bwd inp).launches = [l] ∧
          l.width = inp.colors.sizeLast ∧
          l.kernel = "rasterize_to_pixels_from_world_3dgs_bwd_kernel") ∧
      (inp.colors.sizeLast ∉ supported_channels →
        (rasterize_to_pixels_from_world_3dgs_bwd inp).launches = [] ∧
        (rasterize_to_pixels_from_world_3dgs_bwd inp).result
          = .error (.unsupportedChannels inp.colors.sizeLast))) := by
  refine ⟨?_, ?_, ?_, ?_, ?_, ?_⟩ <;> intro inp h <;>
    refine ⟨fun hm => ?_, fun hm => ?_⟩
  · simp only [rasterize_to_pixels_3dgs_fwd, h, if_pos hm]
    exact ⟨_, rfl, rfl, rfl⟩
  · simp [rasterize_to_pixels_3dgs_fwd, h, hm]
  · simp only [rasterize_to_pixels_3dgs_bwd, h, if_pos hm]
    exact ⟨_, rfl, rfl, rfl⟩
  · simp [rasterize_to_pixels_3dgs_bwd, h, hm]
  · simp only [rasterize_to_pixels_2dgs_fwd, h, if_pos hm]
    exact ⟨_, rfl, rfl, rfl⟩
  · simp [rasterize_to_pixels_2dgs_fwd, h, hm]
  · simp only [rasterize_to_pixels_2dgs_bwd, h, if_pos hm]
    exact ⟨_, rfl, rfl, rfl⟩
  · simp [rasterize_to_pixels_2dgs_bwd, h, hm]
  · simp only [rasterize_to_pixels_from_world_3dgs_fwd, h, if_pos hm]
    exact ⟨_, rfl, rfl, rfl⟩
  · simp [rasterize_to_pixels_from_world_3dgs_fwd, h, hm]
  · simp only [rasterize_to_pixels_from_world_3dgs_bwd, h, if_pos hm]
    exact ⟨_, rfl, rfl, rfl⟩
  · simp [rasterize_to_pixels_from_world_3dgs_bwd, h, hm]

/-- C1 instance: concrete calls exercising both dispatch branches — a
supported width (3) launches exactly one kernel at that width in each entry
point, and the unsupported width 6 raises the configuration error without a
launch. -/
theorem channel_width_dispatch_witness :
    (∃ l, (rasterize_to_pixels_3dgs_fwd fwd3dgsW).launches = [l] ∧
        l.width = fwd3dgsW.colors.sizeLast ∧
        l.kernel = "rasterize_to_pixels_3dgs_fwd_kernel") ∧
    ((rasterize_to_pixels_3dgs_fwd fwd3dgsBad).launches = [] ∧
      (rasterize_to_pixels_3dgs_fwd fwd3dgsBad).result
        = .error (.unsupportedChannels fwd3dgsBad.colors.sizeLast)) ∧
    (∃ l, (rasterize_to_pixels_3dgs_bwd bwd3dgsW).launches = [l] ∧
        l.width = bwd3dgsW.colors.sizeLast ∧
        l.kernel = "rasterize_to_pixels_3dgs_bwd_kernel") ∧
    (∃ l, (rasterize_to_pixels_2dgs_fwd fwd2dgsW).launches = [l] ∧
        l.width = fwd2dgsW.colors.sizeLast ∧
        l.kernel = "rasterize_to_pixels_2dgs_fwd_kernel") ∧
    (∃ l, (rasterize_to_pixels_2dgs_bwd bwd2dgsW).launches = [l] ∧
        l.width = bwd2dgsW.colors.sizeLast ∧
        l.kernel = "rasterize_to_pixels_2dgs_bwd_kernel") ∧
    (∃ l, (rasterize_to_pixels_from_world_3dgs_fwd fwdWorldW).launches = [l] ∧
        l.width = fwdWorldW.colors.sizeLast ∧
        l.kernel = "rasterize_to_pixels_from_world_3dgs_fwd_kernel") ∧
    (∃ l, (rasterize_to_pixels_from_world_3dgs_bwd bwdWorldW).launches = [l] ∧
        l.width = bwdWorldW.colors.sizeLast ∧
        l.kernel = "rasterize_to_pixels_from_world_3dgs_bwd_kernel") :=
  ⟨(channel_width_dispatch.1 fwd3dgsW rfl).1 (by decide),
   (channel_width_dispatch.1 fwd3dgsBad rfl).2 (by decide),
   (channel_width_dispatch.2.1 bwd3dgsW rfl).1 (by decide),
   (channel_width_dispatch.2.2.1 fwd2dgsW rfl).1 (by decide),
   (channel_width_dispatch.2.2.2.1 bwd2dgsW rfl).1 (by decide),
   (channel_width_dispatch.2.2.2.2.1 fwdWorldW rfl).1 (by decide),
   (channel_width_dispatch.2.2.2.2.2 bwdWorldW rfl).1 (by decide)⟩

/-- C5: every entry point is atomic in the face of configuration errors:
whenever a call returns an error (a `CHECK_INPUT` device/contiguity failure
or an unsupported channel width), its launch trace is empty — no
rasterization kernel ran, and, the outputs existing only in the `ok` branch
of the result, no partially-written output is produced. -/
theorem config_errors_before_launch :
    (∀ inp : Fwd3dgsInput, isErr (rasterize_to_pixels_3dgs_fwd inp).result = true →
      (rasterize_to_pixels_3dgs_fwd inp).launches = []) ∧
    (∀ inp : Bwd3dgsInput, isErr (rasterize_to_pixels_3dgs_bwd inp).result = true →
      (rasterize_to_pixels_3dgs_bwd inp).launches = []) ∧
    (∀ inp : Fwd2dgsInput, isErr (rasterize_to_pixels_2dgs_fwd inp).result = true →
      (rasterize_to_pixels_2dgs_fwd inp).launches = []) ∧
    (∀ inp : Bwd2dgsInput, isErr (rasterize_to_pixels_2dgs_bwd inp).result = true →
      (rasterize_to_pixels_2dgs_bwd inp).launches = []) ∧
    (∀ inp : FwdWorldInput,
      isErr (rasterize_to_pixels_from_world_3dgs_fwd inp).result = true →
      (rasterize_to_pixels_from_world_3dgs_fwd inp).launches = []) ∧
    (∀ inp : BwdWorldInput,
      isErr (rasterize_to_pixels_from_world_3dgs_bwd inp).result = true →
      (rasterize_to_pixels_from_world_3dgs_bwd inp).launches = []) ∧
    (∀ (K : IdxKernel) (inp : Idx3dgsInput),
      isErr (rasterize_to_indices_3dgs K inp).result = true →
      (rasterize_to_indices_3dgs K inp).launches = []) ∧
    (∀ (K : IdxKernel) (inp : Idx2dgsInput),
      isErr (rasterize_to_indices_2dgs K inp).result = true →
      (rasterize_to_indices_2dgs K inp).launches = []) := by
  refine ⟨?_, ?_, ?_, ?_, ?_, ?_, ?_, ?_⟩
  · intro inp h
    cases hch : checkInputs (fwd3dgsChecks inp) with
    | error e => simp [rasterize_to_pixels_3dgs_fwd, hch]
    | ok u =>
      cases u
      by_cases hm : inp.colors.sizeLast ∈ supported_channels
      · simp [rasterize_to_pixels_3dgs_fwd, hch, hm, isErr] at h
      · simp [rasterize_to_pixels_3dgs_fwd, hch, hm]
  · intro inp h
    cases hch : checkInputs (bwd3dgsChecks inp) with
    | error e => simp [rasterize_to_pixels_3dgs_bwd, hch]
    | ok u =>
      cases u
      by_cases hm : inp.colors.sizeLast ∈ supported_channels
      · simp [rasterize_to_pixels_3dgs_bwd, hch, hm, isErr] at h
      · simp [rasterize_to_pixels_3dgs_bwd, hch, hm]
  · intro inp h
    cases hch : checkInputs (fwd2dgsChecks inp) with
    | error e => simp [rasterize_to_pixels_2dgs_fwd, hch]
    | ok u =>
      cases u
      by_cases hm : inp.colors.sizeLast ∈ supported_channels
      · simp [rasterize_to_pixels_2dgs_fwd, hch, hm, isErr] at h
      · simp [rasterize_to_pixels_2dgs_fwd, hch, hm]
  · intro inp h
    cases hch : checkInputs (bwd2dgsChecks inp) with
    | error e => simp [rasterize_to_pixels_2dgs_bwd, hch]
    | ok u =>
      cases u
      by_cases hm : inp.colors.sizeLast ∈ supported_channels
      · simp [rasterize_to_pixels_2dgs_bwd, hch, hm, isErr] at h
      · simp [rasterize_to_pixels_2dgs_bwd, hch, hm]
  · intro inp h
    cases hch : checkInputs (fwdWorldChecks inp) with
    | error e => simp [rasterize_to_pixels_from_world_3dgs_fwd, hch]
    | ok u =>
      cases u
      by_cases hm : inp.colors.sizeLast ∈ supported_channels
      · simp [rasterize_to_pixels_from_world_3dgs_fwd, hch, hm, isErr] at h
      · simp [rasterize_to_pixels_from_world_3dgs_fwd, hch, hm]
  · intro inp h
    cases hch : checkInputs (bwdWorldChecks inp) with
    | error e => simp [rasterize_to_pixels_from_world_3dgs_bwd, hch]
    | ok u =>
      cases u
      by_cases hm : inp.colors.sizeLast ∈ supported_channels
      · simp [rasterize_to_pixels_from_world_3dgs_bwd, hch, hm, isErr] at h
      · simp [rasterize_to_pixels_from_world_3dgs_bwd, hch, hm]
  · intro K inp h
    cases hch : checkInputs (idx3dgsChecks inp) with
    | error e => simp [rasterize_to_indices_3dgs, hch]
    | ok u =>
      cases u
      by_cases h1 : inp.flatten_ids.size0 = 0
      · simp [rasterize_to_indices_3dgs, hch, h1, isErr] at h
      · by_cases h2 : nElemsOf ((K (idx3dgsCommon inp)).map List.length) = 0
        · simp [rasterize_to_indices_3dgs, hch, h1, h2, isErr] at h
        · simp [rasterize_to_indices_3dgs, hch, h1, h2, isErr] at h
  · intro K inp h
    cases hch : checkInputs (idx2dgsChecks inp) with
    | error e => simp [rasterize_to_indices_2dgs, hch]
    | ok u =>
      cases u
      by_cases h1 : inp.flatten_ids.size0 = 0
      · simp [rasterize_to_indices_2dgs, hch, h1, isErr] at h
      · by_cases h2 : nElemsOf ((K (idx2dgsCommon inp)).map List.length) = 0
        · simp [rasterize_to_indices_2dgs, hch, h1, h2, isErr] at h
        · simp [rasterize_to_indices_2dgs, hch, h1, h2, isErr] at h

/-- C5 instance: a call with an unsupported width (or a non-contiguous
input, for the index wrappers) errors with an empty launch trace in each
entry point. -/
theorem config_errors_before_launch_witness :
    (rasterize_to_pixels_3dgs_fwd fwd3dgsBad).launches = [] ∧
    (rasterize_to_pixels_3dgs_bwd bwd3dgsBad).launches = [] ∧
    (rasterize_to_pixels_2dgs_fwd fwd2dgsBad).launches = [] ∧
    (rasterize_to_pixels_2dgs_bwd bwd2dgsBad).launches = [] ∧
    (rasterize_to_pixels_from_world_3dgs_fwd fwdWorldBad).launches = [] ∧
    (rasterize_to_pixels_from_world_3dgs_bwd bwdWorldBad).launches = [] ∧
    (rasterize_to_indices_3dgs Ksample idx3Bad).launches = [] ∧
    (rasterize_to_indices_2dgs Ksample idx2Bad).launches = [] :=
  ⟨config_errors_before_launch.1 fwd3dgsBad rfl,
   config_errors_before_launch.2.1 bwd3dgsBad rfl,
   config_errors_before_launch.2.2.1 fwd2dgsBad rfl,
   config_errors_before_launch.2.2.2.1 bwd2dgsBad rfl,
   config_errors_before_launch.2.2.2.2.1 fwdWorldBad rfl,
   config_errors_before_launch.2.2.2.2.2.1 bwdWorldBad rfl,
   config_errors_before_launch.2.2.2.2.2.2.1 Ksample idx3Bad rfl,
   config_errors_before_launch.2.2.2.2.2.2.2 Ksample idx2Bad rfl⟩

/-- C7: every successful forward call returns outputs of the advertised
shapes: for 3DGS a color image `[..., H, W, channels]`, an alpha image
`[..., H, W, 1]` and an integer last-contributing-index map `[..., H, W]`;
for 2DGS additionally a normal image `[..., H, W, 3]`, a distortion image
`[..., H, W, 1]`, a median-depth image `[..., H, W, 1]` and an integer
median-index map `[..., H, W]` (leading dims taken from `tile_offsets`). -/
theorem fwd_output_shapes :
    (∀ (inp : Fwd3dgsInput) (r a li : Tensor),
      (rasterize_to_pixels_3dgs_fwd inp).result = .ok (r, a, li) →
        r.shape = inp.tile_offsets.shape.take (inp.tile_offsets.shape.length - 2)
            ++ [inp.image_height, inp.image_width, inp.colors.sizeLast] ∧
        a.shape = inp.tile_offsets.shape.take (inp.tile_offsets.shape.length - 2)
            ++ [inp.image_height, inp.image_width, 1] ∧
        li.shape = inp.tile_offsets.shape.take (inp.tile_offsets.shape.length - 2)
            ++ [inp.image_height, inp.image_width] ∧
        li.dtype = DType.int32) ∧
    (∀ (inp : Fwd2dgsInput) (r a n d m li mi : Tensor),
      (rasterize_to_pixels_2dgs_fwd inp).result = .ok (r, a, n, d, m, li, mi) →
        r.shape = inp.tile_offsets.shape.take (inp.tile_offsets.shape.length - 2)
            ++ [inp.image_height, inp.image_width, inp.colors.sizeLast] ∧
        a.shape = inp.tile_offsets.shape.take (inp.tile_offsets.shape.length - 2)
            ++ [inp.image_height, inp.image_width, 1] ∧
        n.shape = inp.tile_offsets.shape.take (inp.tile_offsets.shape.length - 2)
            ++ [inp.image_height, inp.image_width, 3] ∧
        d.shape = inp.tile_offsets.shape.take (inp.tile_offsets.shape.length - 2)
            ++ [inp.image_height, inp.image_width, 1] ∧
        m.shape = inp.tile_offsets.shape.take (inp.tile_offsets.shape.length - 2)
            ++ [inp.image_height, inp.image_width, 1] ∧
        li.shape = inp.tile_offsets.shape.take (inp.tile_offsets.shape.length - 2)
            ++ [inp.image_height, inp.image_width] ∧
        li.dtype = DType.int32 ∧
        mi.shape = inp.tile_offsets.shape.take (inp.tile_offsets.shape.length - 2)
            ++ [inp.image_height, inp.image_width] ∧
        mi.dtype = DType.int32) := by
  constructor
  · intro inp r a li h
    cases hch : checkInputs (fwd3dgsChecks inp) with
    | error e => simp [rasterize_to_pixels_3dgs_fwd, hch] at h
    | ok u =>
      cases u
      by_cases hm : inp.colors.sizeLast ∈ supported_channels
      · simp only [rasterize_to_pixels_3dgs_fwd, hch, if_pos hm, Except.ok.injEq,
          Prod.mk.injEq] at h
        obtain ⟨h1, h2, h3⟩ := h
        subst h1; subst h2; subst h3
        exact ⟨rfl, rfl, rfl, rfl⟩
      · simp [rasterize_to_pixels_3dgs_fwd, hch, hm] at h
  · intro inp r a n d m li mi h
    cases hch : checkInputs (fwd2dgsChecks inp) with
    | error e => simp [rasterize_to_pixels_2dgs_fwd, hch] at h
    | ok u =>
      cases u
      by_cases hm : inp.colors.sizeLast ∈ supported_channels
      · simp only [rasterize_to_pixels_2dgs_fwd, hch, if_pos hm, Except.ok.injEq,
          Prod.mk.injEq] at h
        obtain ⟨h1, h2, h3, h4, h5, h6, h7⟩ := h
        subst h1; subst h2; subst h3; subst h4; subst h5; subst h6; subst h7
        exact ⟨rfl, rfl, rfl, rfl, rfl, rfl, rfl, rfl, rfl⟩
      · simp [rasterize_to_pixels_2dgs_fwd, hch, hm] at h

/-- C7 instance: the concrete 3-channel forward calls return exactly the
advertised shapes. -/
theorem fwd_output_shapes_witness :
    ((atEmpty [16, 16, 3] DType.float32).shape
        = fwd3dgsW.tile_offsets.shape.take (fwd3dgsW.tile_offsets.shape.length - 2)
          ++ [fwd3dgsW.image_height, fwd3dgsW.image_width, fwd3dgsW.colors.sizeLast] ∧
      (atEmpty [16, 16, 1] DType.float32).shape
        = fwd3dgsW.tile_offsets.shape.take (fwd3dgsW.tile_offsets.shape.length - 2)
          ++ [fwd3dgsW.image_height, fwd3dgsW.image_width, 1] ∧
      (atEmpty [16, 16] DType.int32).shape
        = fwd3dgsW.tile_offsets.shape.take (fwd3dgsW.tile_offsets.shape.length - 2)
          ++ [fwd3dgsW.image_height, fwd3dgsW.image_width] ∧
      (atEmpty [16, 16] DType.int32).dtype = DType.int32) ∧
    ((atEmpty [16, 16, 3] DType.float32).shape
        = fwd2dgsW.tile_offsets.shape.take (fwd2dgsW.tile_offsets.shape.length - 2)
          ++ [fwd2dgsW.image_height, fwd2dgsW.image_width, fwd2dgsW.colors.sizeLast] ∧
      (atEmpty [16, 16, 1] DType.float32).shape
        = fwd2dgsW.tile_offsets.shape.take (fwd2dgsW.tile_offsets.shape.length - 2)
          ++ [fwd2dgsW.image_height, fwd2dgsW.image_width, 1] ∧
      (atEmpty [16, 16, 3] DType.float32).shape
        = fwd2dgsW.tile_offsets.shape.take (fwd2dgsW.tile_offsets.shape.length - 2)
          ++ [fwd2dgsW.image_height, fwd2dgsW.image_width, 3] ∧
      (atEmpty [16, 16, 1] DType.float32).shape
        = fwd2dgsW.tile_offsets.shape.take (fwd2dgsW.tile_offsets.shape.length - 2)
          ++ [fwd2dgsW.image_height, fwd2dgsW.image_width, 1] ∧
      (atEmpty [16, 16, 1] DType.float32).shape
        = fwd2dgsW.tile_offsets.shape.take (fwd2dgsW.tile_offsets.shape.length - 2)
          ++ [fwd2dgsW.image_height, fwd2dgsW.image_width, 1] ∧
      (atEmpty [16, 16] DType.int32).shape
        = fwd2dgsW.tile_offsets.shape.take (fwd2dgsW.tile_offsets.shape.length - 2)
          ++ [fwd2dgsW.image_height, fwd2dgsW.image_width] ∧
      (atEmpty [16, 16] DType.int32).dtype = DType.int32 ∧
      (atEmpty [16, 16] DType.int32).shape
        = fwd2dgsW.tile_offsets.shape.take (fwd2dgsW.tile_offsets.shape.length - 2)
          ++ [fwd2dgsW.image_height, fwd2dgsW.image_width] ∧
      (atEmpty [16, 16] DType.int32).dtype = DType.int32) :=
  ⟨fwd_output_shapes.1 fwd3dgsW _ _ _ rfl,
   fwd_output_shapes.2 fwd2dgsW _ _ _ _ _ _ _ rfl⟩

/-- C4: in each backward entry point, every per-primitive gradient buffer
handed to the kernel is `zeros_like` of the corresponding consumed
primitive array — so it is zero-initialized before the launch and has
exactly that array's shape and dtype; and under the accumulate-only kernel
model, a primitive position receiving no contribution ends the call with an
exactly-zero gradient. -/
theorem bwd_gradient_buffers_zero_init :
    (∀ t : Tensor, (zerosLike t).shape = t.shape ∧ (zerosLike t).dtype = t.dtype ∧
      (zerosLike t).data = List.replicate t.numel (some 0)) ∧
    (∀ inp : Bwd3dgsInput, checkInputs (bwd3dgsChecks inp) = .ok () →
      inp.colors.sizeLast ∈ supported_channels →
      ∃ l, (rasterize_to_pixels_3dgs_bwd inp).launches = [l] ∧
        l.outs = [zerosLike inp.means2d, zerosLike inp.conics,
          zerosLike inp.colors, zerosLike inp.opacities]) ∧
    (∀ inp : Bwd2dgsInput, checkInputs (bwd2dgsChecks inp) = .ok () →
      inp.colors.sizeLast ∈ supported_channels →
      ∃ l, (rasterize_to_pixels_2dgs_bwd inp).launches = [l] ∧
        l.outs = [zerosLike inp.means2d, zerosLike inp.ray_transforms,
          zerosLike inp.colors, zerosLike inp.opacities, zerosLike inp.normals,
          zerosLike inp.densify]) ∧
    (∀ inp : BwdWorldInput, checkInputs (bwdWorldChecks inp) = .ok () →
      inp.colors.sizeLast ∈ supported_channels →
      ∃ l, (rasterize_to_pixels_from_world_3dgs_bwd inp).launches = [l] ∧
        l.outs = [zerosLike inp.means, zerosLike inp.quats, zerosLike inp.scales,
          zerosLike inp.colors, zerosLike inp.opacities]) ∧
    (∀ (nn : Nat) (contribs : List (List ℚ)) (p : Nat),
      (∀ c ∈ contribs, c.length = nn) → (∀ c ∈ contribs, c.getD p 0 = 0) →
      (accumulateGrads (List.replicate nn 0) contribs).getD p 0 = 0) := by
  refine ⟨fun t => ⟨rfl, rfl, rfl⟩, ?_, ?_, ?_, ?_⟩
  · intro inp h hm
    simp only [rasterize_to_pixels_3dgs_bwd, h, if_pos hm]
    exact ⟨_, rfl, rfl⟩
  · intro inp h hm
    simp only [rasterize_to_pixels_2dgs_bwd, h, if_pos hm]
    exact ⟨_, rfl, rfl⟩
  · intro inp h hm
    simp only [rasterize_to_pixels_from_world_3dgs_bwd, h, if_pos hm]
    exact ⟨_, rfl, rfl⟩
  · intro nn contribs p hlen hzero
    refine accumulateGrads_getD_zero _ contribs p ?_ ?_ hzero
    · simpa using hlen
    · by_cases hp : p < nn
      · simp [List.getD_eq_getElem?_getD, List.getElem?_replicate, hp]
      · simp [List.getD_eq_getElem?_getD, List.getElem?_replicate, hp]

/-- C4 instance: the three concrete backward calls hand the kernel
zero-initialized shape/dtype-matched gradient buffers, and an accumulation
of two contributions that are zero at position 0 leaves position 0 zero. -/
theorem bwd_gradient_buffers_zero_init_witness :
    ((zerosLike (sampleT [2, 2])).shape = (sampleT [2, 2]).shape ∧
      (zerosLike (sampleT [2, 2])).dtype = (sampleT [2, 2]).dtype ∧
      (zerosLike (sampleT [2, 2])).data
        = List.replicate (sampleT [2, 2]).numel (some 0)) ∧
    (∃ l, (rasterize_to_pixels_3dgs_bwd bwd3dgsW).launches = [l] ∧
      l.outs = [zerosLike bwd3dgsW.means2d, zerosLike bwd3dgsW.conics,
        zerosLike bwd3dgsW.colors, zerosLike bwd3dgsW.opacities]) ∧
    (∃ l, (rasterize_to_pixels_2dgs_bwd bwd2dgsW).launches = [l] ∧
      l.outs = [zerosLike bwd2dgsW.means2d, zerosLike bwd2dgsW.ray_transforms,
        zerosLike bwd2dgsW.colors, zerosLike bwd2dgsW.opacities,
        zerosLike bwd2dgsW.normals, zerosLike bwd2dgsW.densify]) ∧
    (∃ l, (rasterize_to_pixels_from_world_3dgs_bwd bwdWorldW).launches = [l] ∧
      l.outs = [zerosLike bwdWorldW.means, zerosLike bwdWorldW.quats,
        zerosLike bwdWorldW.scales, zerosLike bwdWorldW.colors,
        zerosLike bwdWorldW.opacities]) ∧
    (accumulateGrads (List.replicate 2 0) [[0, 3], [0, 4]]).getD 0 0 = 0 :=
  ⟨bwd_gradient_buffers_zero_init.1 (sampleT [2, 2]),
   bwd_gradient_buffers_zero_init.2.1 bwd3dgsW rfl (by decide),
   bwd_gradient_buffers_zero_init.2.2.1 bwd2dgsW rfl (by decide),
   bwd_gradient_buffers_zero_init.2.2.2.1 bwdWorldW rfl (by decide),
   bwd_gradient_buffers_zero_init.2.2.2.2 2 [[0, 3], [0, 4]] 0
     (by decide) (by norm_num)⟩

/-- C10: in the 3DGS and 2DGS backward wrappers, the first returned tensor
is the absolute-gradient output: when `absgrad` is false it is the
undefined (unallocated) tensor, modelled `none`, and the kernel receives no
absolute-gradient buffer; when `absgrad` is true it is `zeros_like(means2d)`
— shaped like `means2d` and zero-initialized before the launch — and that
same buffer is passed to the kernel as its optional argument. -/
theorem absgrad_optional_buffer :
    (∀ inp : Bwd3dgsInput, checkInputs (bwd3dgsChecks inp) = .ok () →
      inp.colors.sizeLast ∈ supported_channels →
      ∃ l v, (rasterize_to_pixels_3dgs_bwd inp).launches = [l] ∧
        (rasterize_to_pixels_3dgs_bwd inp).result = .ok v ∧
        v.1 = (if inp.absgrad then some (zerosLike inp.means2d) else none) ∧
        l.optIns = [inp.backgrounds, inp.masks, v.1] ∧
        (inp.absgrad = false → v.1 = none) ∧
        (inp.absgrad = true → v.1 = some (zerosLike inp.means2d) ∧
          (zerosLike inp.means2d).shape = inp.means2d.shape ∧
          (zerosLike inp.means2d).data
            = List.replicate inp.means2d.numel (some 0))) ∧
    (∀ inp : Bwd2dgsInput, checkInputs (bwd2dgsChecks inp) = .ok () →
      inp.colors.sizeLast ∈ supported_channels →
      ∃ l v, (rasterize_to_pixels_2dgs_bwd inp).launches = [l] ∧
        (rasterize_to_pixels_2dgs_bwd inp).result = .ok v ∧
        v.1 = (if inp.absgrad then some (zerosLike inp.means2d) else none) ∧
        l.optIns = [inp.backgrounds, inp.masks, v.1] ∧
        (inp.absgrad = false → v.1 = none) ∧
        (inp.absgrad = true → v.1 = some (zerosLike inp.means2d) ∧
          (zerosLike inp.means2d).shape = inp.means2d.shape ∧
          (zerosLike inp.means2d).data
            = List.replicate inp.means2d.numel (some 0))) := by
  constructor
  · intro inp h hm
    simp only [rasterize_to_pixels_3dgs_bwd, h, if_pos hm]
    refine ⟨_, _, rfl, rfl, rfl, rfl, fun ha => by simp [ha], fun ha => ?_⟩
    exact ⟨by simp [ha], rfl, rfl⟩
  · intro inp h hm
    simp only [rasterize_to_pixels_2dgs_bwd, h, if_pos hm]
    refine ⟨_, _, rfl, rfl, rfl, rfl, fun ha => by simp [ha], fun ha => ?_⟩
    exact ⟨by simp [ha], rfl, rfl⟩

/-- C10 instance: with `absgrad` off the 3DGS backward call returns no
absolute-gradient tensor and passes none to the kernel; with `absgrad` on
the 2DGS backward call returns and passes the zero-initialized
`zeros_like(means2d)` buffer. -/
theorem absgrad_optional_buffer_witness :
    (∃ l v, (rasterize_to_pixels_3dgs_bwd bwd3dgsW).launches = [l] ∧
      (rasterize_to_pixels_3dgs_bwd bwd3dgsW).result = .ok v ∧
      v.1 = (if bwd3dgsW.absgrad then some (zerosLike bwd3dgsW.means2d) else none) ∧
      l.optIns = [bwd3dgsW.backgrounds, bwd3dgsW.masks, v.1] ∧
      (bwd3dgsW.absgrad = false → v.1 = none) ∧
      (bwd3dgsW.absgrad = true → v.1 = some (zerosLike bwd3dgsW.means2d) ∧
        (zerosLike bwd3dgsW.means2d).shape = bwd3dgsW.means2d.shape ∧
        (zerosLike bwd3dgsW.means2d).data
          = List.replicate bwd3dgsW.means2d.numel (some 0))) ∧
    (∃ l v, (rasterize_to_pixels_2dgs_bwd bwd2dgsWA).launches = [l] ∧
      (rasterize_to_pixels_2dgs_bwd bwd2dgsWA).result = .ok v ∧
      v.1 = (if bwd2dgsWA.absgrad then some (zerosLike bwd2dgsWA.means2d) else none) ∧
      l.optIns = [bwd2dgsWA.backgrounds, bwd2dgsWA.masks, v.1] ∧
      (bwd2dgsWA.absgrad = false → v.1 = none) ∧
      (bwd2dgsWA.absgrad = true → v.1 = some (zerosLike bwd2dgsWA.means2d) ∧
        (zerosLike bwd2dgsWA.means2d).shape = bwd2dgsWA.means2d.shape ∧
        (zerosLike bwd2dgsWA.means2d).data
          = List.replicate bwd2dgsWA.means2d.numel (some 0))) :=
  ⟨absgrad_optional_buffer.1 bwd3dgsW rfl (by decide),
   absgrad_optional_buffer.2 bwd2dgsWA rfl (by decide)⟩

/-- C2: in both index-extraction wrappers, whenever both passes run, the two
launches invoke the same kernel with identical non-output arguments
(`range_start`, `range_end`, `transmittances`, the primitive arrays, image
dimensions, `tile_offsets`, `flatten_ids`), differing only in which output
buffers are supplied (`chunk_cnts` for the counting pass versus
`chunk_starts`/`gaussian_ids`/`pixel_ids` for the compaction pass); the
kernel being a pure function of those arguments, both passes walk the same
restricted range with the same skip predicate and enumerate identical
(primitive, pixel) pairs. -/
theorem indices_two_pass_same_walk :
    (∀ (K : IdxKernel) (inp : Idx3dgsInput), checkInputs (idx3dgsChecks inp) = .ok () →
      inp.flatten_ids.size0 ≠ 0 →
      nElemsOf ((K (idx3dgsCommon inp)).map List.length) ≠ 0 →
      ∃ l1 l2, (rasterize_to_indices_3dgs K inp).launches = [l1, l2] ∧
        l1.common = l2.common ∧
        l1.chunk_starts = none ∧ l1.chunk_cnts = true ∧
        l1.gaussian_ids = false ∧ l1.pixel_ids = false ∧
        l2.chunk_starts = some (chunkStartsOf ((K l1.common).map List.length)) ∧
        l2.chunk_cnts = false ∧ l2.gaussian_ids = true ∧ l2.pixel_ids = true ∧
        K l1.common = K l2.common) ∧
    (∀ (K : IdxKernel) (inp : Idx2dgsInput), checkInputs (idx2dgsChecks inp) = .ok () →
      inp.flatten_ids.size0 ≠ 0 →
      nElemsOf ((K (idx2dgsCommon inp)).map List.length) ≠ 0 →
      ∃ l1 l2, (rasterize_to_indices_2dgs K inp).launches = [l1, l2] ∧
        l1.common = l2.common ∧
        l1.chunk_starts = none ∧ l1.chunk_cnts = true ∧
        l1.gaussian_ids = false ∧ l1.pixel_ids = false ∧
        l2.chunk_starts = some (chunkStartsOf ((K l1.common).map List.length)) ∧
        l2.chunk_cnts = false ∧ l2.gaussian_ids = true ∧ l2.pixel_ids = true ∧
        K l1.common = K l2.common) := by
  constructor
  · intro K inp h h1 h2
    simp only [rasterize_to_indices_3dgs, h, if_pos h1, if_pos h2]
    exact ⟨_, _, rfl, rfl, rfl, rfl, rfl, rfl, rfl, rfl, rfl, rfl, rfl⟩
  · intro K inp h h1 h2
    simp only [rasterize_to_indices_2dgs, h, if_pos h1, if_pos h2]
    exact ⟨_, _, rfl, rfl, rfl, rfl, rfl, rfl, rfl, rfl, rfl, rfl, rfl⟩

/-- C2 instance: a concrete two-pass extraction (two pixels contributing
one and two primitives) shows the two launches agree on everything but the
supplied output buffers, in both wrappers. -/
theorem indices_two_pass_same_walk_witness :
    (∃ l1 l2, (rasterize_to_indices_3dgs Ksample idx3W).launches = [l1, l2] ∧
      l1.common = l2.common ∧
      l1.chunk_starts = none ∧ l1.chunk_cnts = true ∧
      l1.gaussian_ids = false ∧ l1.pixel_ids = false ∧
      l2.chunk_starts = some (chunkStartsOf ((Ksample l1.common).map List.length)) ∧
      l2.chunk_cnts = false ∧ l2.gaussian_ids = true ∧ l2.pixel_ids = true ∧
      Ksample l1.common = Ksample l2.common) ∧
    (∃ l1 l2, (rasterize_to_indices_2dgs Ksample idx2W).launches = [l1, l2] ∧
      l1.common = l2.common ∧
      l1.chunk_starts = none ∧ l1.chunk_cnts = true ∧
      l1.gaussian_ids = false ∧ l1.pixel_ids = false ∧
      l2.chunk_starts = some (chunkStartsOf ((Ksample l1.common).map List.length)) ∧
      l2.chunk_cnts = false ∧ l2.gaussian_ids = true ∧ l2.pixel_ids = true ∧
      Ksample l1.common = Ksample l2.common) :=
  ⟨indices_two_pass_same_walk.1 Ksample idx3W rfl (by decide) (by decide),
   indices_two_pass_same_walk.2 Ksample idx2W rfl (by decide) (by decide)⟩

/-- C3: the write offsets handed to the compaction pass are exactly the
exclusive prefix sums of the per-pixel counts (the inclusive `cumsum` minus
the counts), and the number of output pairs — the allocated length of the
returned id arrays, the last element of the `cumsum` — equals the sum of all
per-pixel counts; shown for both index-extraction wrappers. -/
theorem indices_prefix_sum_offsets :
    (∀ cnts : List Nat, chunkStartsOf cnts = exclusiveSums cnts) ∧
    (∀ cnts : List Nat, nElemsOf cnts = cnts.sum) ∧
    (∀ (K : IdxKernel) (inp : Idx3dgsInput), checkInputs (idx3dgsChecks inp) = .ok () →
      inp.flatten_ids.size0 ≠ 0 →
      nElemsOf ((K (idx3dgsCommon inp)).map List.length) ≠ 0 →
      ∃ g p l1 l2, (rasterize_to_indices_3dgs K inp).result = .ok (g, p) ∧
        g.shape = [((K (idx3dgsCommon inp)).map List.length).sum] ∧
        p.shape = [((K (idx3dgsCommon inp)).map List.length).sum] ∧
        (rasterize_to_indices_3dgs K inp).launches = [l1, l2] ∧
        l2.chunk_starts
          = some (exclusiveSums ((K (idx3dgsCommon inp)).map List.length))) ∧
    (∀ (K : IdxKernel) (inp : Idx2dgsInput), checkInputs (idx2dgsChecks inp) = .ok () →
      inp.flatten_ids.size0 ≠ 0 →
      nElemsOf ((K (idx2dgsCommon inp)).map List.length) ≠ 0 →
      ∃ g p l1 l2, (rasterize_to_indices_2dgs K inp).result = .ok (g, p) ∧
        g.shape = [((K (idx2dgsCommon inp)).map List.length).sum] ∧
        p.shape = [((K (idx2dgsCommon inp)).map List.length).sum] ∧
        (rasterize_to_indices_2dgs K inp).launches = [l1, l2] ∧
        l2.chunk_starts
          = some (exclusiveSums ((K (idx2dgsCommon inp)).map List.length))) := by
  refine ⟨chunkStartsOf_eq_exclusiveSums, nElemsOf_eq_sum, ?_, ?_⟩
  · intro K inp h h1 h2
    simp only [rasterize_to_indices_3dgs, h, if_pos h1, if_pos h2]
    refine ⟨_, _, _, _, rfl, ?_, ?_, rfl, ?_⟩
    · rw [longTensor, nElemsOf_eq_sum]
    · rw [longTensor, nElemsOf_eq_sum]
    · rw [chunkStartsOf_eq_exclusiveSums]
  · intro K inp h h1 h2
    simp only [rasterize_to_indices_2dgs, h, if_pos h1, if_pos h2]
    refine ⟨_, _, _, _, rfl, ?_, ?_, rfl, ?_⟩
    · rw [longTensor, nElemsOf_eq_sum]
    · rw [longTensor, nElemsOf_eq_sum]
    · rw [chunkStartsOf_eq_exclusiveSums]

/-- C3 instance: for per-pixel counts `[1, 2]` the write offsets are
`[0, 1]` and the output id arrays have length `3 = 1 + 2`, in both
wrappers. -/
theorem indices_prefix_sum_offsets_witness :
    chunkStartsOf [1, 2] = exclusiveSums [1, 2] ∧
    nElemsOf [1, 2] = [1, 2].sum ∧
    (∃ g p l1 l2, (rasterize_to_indices_3dgs Ksample idx3W).result = .ok (g, p) ∧
      g.shape = [((Ksample (idx3dgsCommon idx3W)).map List.length).sum] ∧
      p.shape = [((Ksample (idx3dgsCommon idx3W)).map List.length).sum] ∧
      (rasterize_to_indices_3dgs Ksample idx3W).launches = [l1, l2] ∧
      l2.chunk_starts
        = some (exclusiveSums ((Ksample (idx3dgsCommon idx3W)).map List.length))) ∧
    (∃ g p l1 l2, (rasterize_to_indices_2dgs Ksample idx2W).result = .ok (g, p) ∧
      g.shape = [((Ksample (idx2dgsCommon idx2W)).map List.length).sum] ∧
      p.shape = [((Ksample (idx2dgsCommon idx2W)).map List.length).sum] ∧
      (rasterize_to_indices_2dgs Ksample idx2W).launches = [l1, l2] ∧
      l2.chunk_starts
        = some (exclusiveSums ((Ksample (idx2dgsCommon idx2W)).map List.length))) :=
  ⟨indices_prefix_sum_offsets.1 [1, 2],
   indices_prefix_sum_offsets.2.1 [1, 2],
   indices_prefix_sum_offsets.2.2.1 Ksample idx3W rfl (by decide) (by decide),
   indices_prefix_sum_offsets.2.2.2 Ksample idx2W rfl (by decide) (by decide)⟩

/-- C6: both index-extraction wrappers return two `kLong` id arrays of
equal length; with an empty `flatten_ids` both arrays have length zero and
no kernel is launched; and when the counted total is zero only the counting
kernel has run — the compaction kernel is not launched. -/
theorem indices_equal_length_outputs :
    (∀ (K : IdxKernel) (inp : Idx3dgsInput), checkInputs (idx3dgsChecks inp) = .ok () →
      (∃ g p, (rasterize_to_indices_3dgs K inp).result = .ok (g, p) ∧
        g.dtype = DType.int64 ∧ p.dtype = DType.int64 ∧ g.shape = p.shape) ∧
      (inp.flatten_ids.size0 = 0 →
        (rasterize_to_indices_3dgs K inp).launches = [] ∧
        (rasterize_to_indices_3dgs K inp).result
          = .ok (atEmpty [0] DType.int64, atEmpty [0] DType.int64)) ∧
      (inp.flatten_ids.size0 ≠ 0 →
        nElemsOf ((K (idx3dgsCommon inp)).map List.length) = 0 →
        (rasterize_to_indices_3dgs K inp).launches.length = 1)) ∧
    (∀ (K : IdxKernel) (inp : Idx2dgsInput), checkInputs (idx2dgsChecks inp) = .ok () →
      (∃ g p, (rasterize_to_indices_2dgs K inp).result = .ok (g, p) ∧
        g.dtype = DType.int64 ∧ p.dtype = DType.int64 ∧ g.shape = p.shape) ∧
      (inp.flatten_ids.size0 = 0 →
        (rasterize_to_indices_2dgs K inp).launches = [] ∧
        (rasterize_to_indices_2dgs K inp).result
          = .ok (atEmpty [0] DType.int64, atEmpty [0] DType.int64)) ∧
      (inp.flatten_ids.size0 ≠ 0 →
        nElemsOf ((K (idx2dgsCommon inp)).map List.length) = 0 →
        (rasterize_to_indices_2dgs K inp).launches.length = 1)) := by
  constructor
  · intro K inp h
    refine ⟨?_, ?_, ?_⟩
    · by_cases h1 : inp.flatten_ids.size0 = 0
      · refine ⟨atEmpty [0] DType.int64, atEmpty [0] DType.int64, ?_, rfl, rfl, rfl⟩
        simp [rasterize_to_indices_3dgs, h, h1]
      · by_cases h2 : nElemsOf ((K (idx3dgsCommon inp)).map List.length) = 0
        · refine ⟨atEmpty [nElemsOf ((K (idx3dgsCommon inp)).map List.length)]
            DType.int64, atEmpty [nElemsOf ((K (idx3dgsCommon inp)).map List.length)]
            DType.int64, ?_, rfl, rfl, rfl⟩
          simp [rasterize_to_indices_3dgs, h, h1, h2]
        · refine ⟨longTensor (nElemsOf ((K (idx3dgsCommon inp)).map List.length))
            (K (idx3dgsCommon inp)).flatten,
            longTensor (nElemsOf ((K (idx3dgsCommon inp)).map List.length))
            (pixelIdsOf (K (idx3dgsCommon inp))), ?_, rfl, rfl, rfl⟩
          simp [rasterize_to_indices_3dgs, h, h1, h2]
    · intro h1
      constructor <;> simp [rasterize_to_indices_3dgs, h, h1]
    · intro h1 h2
      simp [rasterize_to_indices_3dgs, h, h1, h2]
  · intro K inp h
    refine ⟨?_, ?_, ?_⟩
    · by_cases h1 : inp.flatten_ids.size0 = 0
      · refine ⟨atEmpty [0] DType.int64, atEmpty [0] DType.int64, ?_, rfl, rfl, rfl⟩
        simp [rasterize_to_indices_2dgs, h, h1]
      · by_cases h2 : nElemsOf ((K (idx2dgsCommon inp)).map List.length) = 0
        · refine ⟨atEmpty [nElemsOf ((K (idx2dgsCommon inp)).map List.length)]
            DType.int64, atEmpty [nElemsOf ((K (idx2dgsCommon inp)).map List.length)]
            DType.int64, ?_, rfl, rfl, rfl⟩
          simp [rasterize_to_indices_2dgs, h, h1, h2]
        · refine ⟨longTensor (nElemsOf ((K (idx2dgsCommon inp)).map List.length))
            (K (idx2dgsCommon inp)).flatten,
            longTensor (nElemsOf ((K (idx2dgsCommon inp)).map List.length))
            (pixelIdsOf (K (idx2dgsCommon inp))), ?_, rfl, rfl, rfl⟩
          simp [rasterize_to_indices_2dgs, h, h1, h2]
    · intro h1
      constructor <;> simp [rasterize_to_indices_2dgs, h, h1]
    · intro h1 h2
      simp [rasterize_to_indices_2dgs, h, h1, h2]

/-- C6 instance: the nonempty call returns two `kLong` arrays of the same
shape; the empty-`flatten_ids` call returns two zero-length arrays with no
launch; the all-zero-count call performs only the counting launch. -/
theorem indices_equal_length_outputs_witness :
    (∃ g p, (rasterize_to_indices_3dgs Ksample idx3W).result = .ok (g, p) ∧
      g.dtype = DType.int64 ∧ p.dtype = DType.int64 ∧ g.shape = p.shape) ∧
    ((rasterize_to_indices_3dgs Ksample idx3W0).launches = [] ∧
      (rasterize_to_indices_3dgs Ksample idx3W0).result
        = .ok (atEmpty [0] DType.int64, atEmpty [0] DType.int64)) ∧
    (rasterize_to_indices_3dgs Kzero idx3W).launches.length = 1 ∧
    (∃ g p, (rasterize_to_indices_2dgs Ksample idx2W).result = .ok (g, p) ∧
      g.dtype = DType.int64 ∧ p.dtype = DType.int64 ∧ g.shape = p.shape) ∧
    ((rasterize_to_indices_2dgs Ksample idx2W0).launches = [] ∧
      (rasterize_to_indices_2dgs Ksample idx2W0).result
        = .ok (atEmpty [0] DType.int64, atEmpty [0] DType.int64)) ∧
    (rasterize_to_indices_2dgs Kzero idx2W).launches.length = 1 :=
  ⟨(indices_equal_length_outputs.1 Ksample idx3W rfl).1,
   (indices_equal_length_outputs.1 Ksample idx3W0 rfl).2.1 (by decide),
   (indices_equal_length_outputs.1 Kzero idx3W rfl).2.2 (by decide) (by decide),
   (indices_equal_length_outputs.2 Ksample idx2W rfl).1,
   (indices_equal_length_outputs.2 Ksample idx2W0 rfl).2.1 (by decide),
   (indices_equal_length_outputs.2 Kzero idx2W rfl).2.2 (by decide) (by decide)⟩

/-- C8: under the spec-modelled forward kernel, a tile whose mask entry is
false gives every pixel exactly the background color and zero alpha with
zero primitive evaluations, and every pixel of the tile is written (the
output list covers all pixels); meanwhile the wrappers allocate the color
and alpha images uninitialized (`at::empty`, every cell `none`) before
handing them to the kernel, shown for the 3DGS and 2DGS forward entry
points. -/
theorem masked_tile_background :
    (∀ (channels : Nat) (bg : List ℚ) (eps : ℚ)
        (pixels : List (List (Option (ℚ × List ℚ)))),
      bg.length = channels →
        (renderTile channels (some false) bg eps pixels).1
            = pixels.map (fun _ => ⟨bg, 0⟩) ∧
        (renderTile channels (some false) bg eps pixels).2 = 0 ∧
        (renderTile channels (some false) bg eps pixels).1.length = pixels.length) ∧
    (∀ inp : Fwd3dgsInput, checkInputs (fwd3dgsChecks inp) = .ok () →
      inp.colors.sizeLast ∈ supported_channels →
      ∃ l r a li, (rasterize_to_pixels_3dgs_fwd inp).launches = [l] ∧
        l.outs = [r, a, li] ∧
        r.data = List.replicate r.numel none ∧
        a.data = List.replicate a.numel none) ∧
    (∀ inp : Fwd2dgsInput, checkInputs (fwd2dgsChecks inp) = .ok () →
      inp.colors.sizeLast ∈ supported_channels →
      ∃ l r a n d m li mi, (rasterize_to_pixels_2dgs_fwd inp).launches = [l] ∧
        l.outs = [r, a, n, d, m, li, mi] ∧
        r.data = List.replicate r.numel none ∧
        a.data = List.replicate a.numel none) := by
  refine ⟨?_, ?_, ?_⟩
  · intro channels bg eps pixels hbg
    unfold renderTile
    rw [if_pos rfl]
    refine ⟨?_, rfl, by simp⟩
    show pixels.map (fun _ => finishPixel bg (initState channels))
        = pixels.map (fun _ => ⟨bg, 0⟩)
    rw [finishPixel_init bg channels hbg]
  · intro inp h hm
    simp only [rasterize_to_pixels_3dgs_fwd, h, if_pos hm]
    exact ⟨_, _, _, _, rfl, rfl, rfl, rfl⟩
  · intro inp h hm
    simp only [rasterize_to_pixels_2dgs_fwd, h, if_pos hm]
    exact ⟨_, _, _, _, _, _, _, _, rfl, rfl, rfl, rfl⟩

/-- C8 instance: a masked two-pixel tile with background `[2]` renders
`([2], 0)` at both pixels with zero evaluations, and the concrete forward
calls pass uninitialized color/alpha buffers to the kernel. -/
theorem masked_tile_background_witness :
    ((renderTile 1 (some false) [2] 0 [[some (1, [3])], []]).1
        = [[some ((1 : ℚ), [(3 : ℚ)])], []].map (fun _ => ⟨[2], 0⟩) ∧
      (renderTile 1 (some false) [2] 0 [[some (1, [3])], []]).2 = 0 ∧
      (renderTile 1 (some false) [2] 0 [[some (1, [3])], []]).1.length
        = [[some ((1 : ℚ), [(3 : ℚ)])], []].length) ∧
    (∃ l r a li, (rasterize_to_pixels_3dgs_fwd fwd3dgsW).launches = [l] ∧
      l.outs = [r, a, li] ∧
      r.data = List.replicate r.numel none ∧
      a.data = List.replicate a.numel none) ∧
    (∃ l r a n d m li mi, (rasterize_to_pixels_2dgs_fwd fwd2dgsW).launches = [l] ∧
      l.outs = [r, a, n, d, m, li, mi] ∧
      r.data = List.replicate r.numel none ∧
      a.data = List.replicate a.numel none) :=
  ⟨masked_tile_background.1 1 [2] 0 [[some (1, [3])], []] rfl,
   masked_tile_background.2.1 fwd3dgsW rfl (by decide),
   masked_tile_background.2.2 fwd2dgsW rfl (by decide)⟩

/-- C9: `rasterize_to_pixels_from_world_3dgs_fwd` asserts `channels == 3`
before dispatch: the asserted condition is violated by every call whose
channel count differs from 3, including widths the other entry points
accept such as 1 and 4 — and yet those widths are in the dispatch switch's
supported set, which launches a kernel for them when the checks pass. -/
theorem from_world_fwd_rgb_assert :
    (∀ inp : FwdWorldInput, inp.colors.sizeLast ≠ 3 →
      from_world_fwd_assert_cond inp = false) ∧
    (1 ∈ supported_channels ∧ 4 ∈ supported_channels) ∧
    (∀ inp : FwdWorldInput, checkInputs (fwdWorldChecks inp) = .ok () →
      inp.colors.sizeLast ∈ supported_channels →
      ∃ l, (rasterize_to_pixels_from_world_3dgs_fwd inp).launches = [l] ∧
        l.width = inp.colors.sizeLast) := by
  refine ⟨?_, ⟨by decide, by decide⟩, ?_⟩
  · intro inp hne
    simpa [from_world_fwd_assert_cond] using hne
  · intro inp h hm
    simp only [rasterize_to_pixels_from_world_3dgs_fwd, h, if_pos hm]
    exact ⟨_, rfl, rfl⟩

/-- C9 instance: the concrete 1-channel world-space forward call violates
the asserted `channels == 3` condition, yet 1 is in the supported set and
the dispatch launches a width-1 kernel for it. -/
theorem from_world_fwd_rgb_assert_witness :
    from_world_fwd_assert_cond fwdWorldW1 = false ∧
    (1 ∈ supported_channels ∧ 4 ∈ supported_channels) ∧
    (∃ l, (rasterize_to_pixels_from_world_3dgs_fwd fwdWorldW1).launches = [l] ∧
      l.width = fwdWorldW1.colors.sizeLast) :=
  ⟨from_world_fwd_rgb_assert.1 fwdWorldW1 (by decide),
   from_world_fwd_rgb_assert.2.1,
   from_world_fwd_rgb_assert.2.2 fwdWorldW1 rfl (by decide)⟩

end GsplatRaster
